import Mathlib

/-!
Verification of the InnoDB performance-schema data-lock instrumentation
(storage/innobase/handler/p_s.cc): the opaque lock-identifier codec, the
restartable range/pass scan-state machine, the per-transaction lock and
wait enumerators, and the scan/fetch drivers.

Machine integers are modelled as Nat/Int with explicit reductions modulo
powers of two where the C code can overflow or truncate; C strings are
modelled as List Char (end of list plays the role of the terminating NUL,
which cannot occur inside a C string).
-/

namespace PS

/-! ## Decimal printing (model of snprintf with unsigned decimal formats)

snprintf with format %llu / %u / %lu prints the decimal digits of the
(unsigned) argument value.  The recursion is fueled so that everything
reduces in the kernel; fuel n is enough for the at most n digits of n. -/

/-- Digits accumulator: prepends the decimal digits of n to acc.
Fuel bounds the recursion; any fuel at least n computes all digits. -/
def natDigitsAux : Nat → Nat → List Char → List Char
  | 0, _, acc => acc
  | fuel + 1, n, acc =>
    if n = 0 then acc
    else natDigitsAux fuel (n / 10) (Char.ofNat (48 + n % 10) :: acc)

/-- The decimal digit string of n, most significant digit first. -/
def natDigits (n : Nat) : List Char :=
  if n = 0 then ['0'] else natDigitsAux n n []

/-- ASCII whitespace recognized by strtol (isspace in the C locale). -/
def isSpaceChar (ch : Char) : Bool :=
  ch = ' ' || ch = '\t' || ch = '\n' || ch = '\x0b' || ch = '\x0c' || ch = '\r'

/-- Leading-whitespace skipping performed by strtol. -/
def skipSpaces : List Char → List Char
  | [] => []
  | ch :: rest => if isSpaceChar ch then skipSpaces rest else ch :: rest

/-- Largest value of the C type long on LP64 platforms. -/
def LONG_MAX : Int := 2 ^ 63 - 1

/-- Smallest value of the C type long on LP64 platforms. -/
def LONG_MIN : Int := -(2 ^ 63)

/-- Saturation applied by strtol on out-of-range input. -/
def clampLong (v : Int) : Int :=
  if v > LONG_MAX then LONG_MAX else if v < LONG_MIN then LONG_MIN else v

/-- Numeric value of a decimal digit character. -/
def digitVal (ch : Char) : Nat := ch.toNat - 48

/-- Value of a list of decimal digit characters, most significant first. -/
def digitsToNat (l : List Char) : Nat :=
  l.foldl (fun a ch => a * 10 + digitVal ch) 0

/-- Model of strtol(s, &endptr, 10): skip whitespace, optional sign, then a
maximal run of decimal digits.  Returns the (saturated) value and the rest
of the string after the consumed prefix; when no digits are found the value
is 0 and the rest is the whole original string (C: *endptr = nptr). -/
def strtol10 (s : List Char) : Int × List Char :=
  let t := skipSpaces s
  let u := if t.head? = some '-' ∨ t.head? = some '+' then t.tail else t
  let ds := u.takeWhile Char.isDigit
  if ds = [] then (0, s)
  else if t.head? = some '-' then
    (clampLong (-(Int.ofNat (digitsToNat ds))), u.dropWhile Char.isDigit)
  else
    (clampLong (Int.ofNat (digitsToNat ds)), u.dropWhile Char.isDigit)

/-- Conversion of a C long value to ulint (unsigned 64-bit), as performed by
the assignments *trx_id = id_1 etc. in scan_lock_id. -/
def toUlint (v : Int) : Nat := (v % (2 ^ 64 : Int)).toNat

/-- Conversion of a C long value to a 32-bit unsigned type (space_id_t,
page_no_t), as performed by the assignments *space_id = id_2 etc. -/
def toU32 (v : Int) : Nat := (v % (2 ^ 32 : Int)).toNat

/-- Result of scan_lock_id: the decoded lock identity.  LOCK_TABLE carries
(trx id, table id); LOCK_REC carries (trx id, space id, page id, heap no).
A parse failure (C return value 0) is none. -/
inductive ParsedLockId where
  | LOCK_TABLE (trx_id : Nat) (table_id : Nat)
  | LOCK_REC (trx_id : Nat) (space_id : Nat) (page_id : Nat) (heap_id : Nat)
deriving DecidableEq, Repr

/-- Model of scan_lock_id (p_s.cc:678).  Mirrors the C control flow: parse
an integer, require a colon, parse an integer; end of string means a table
lock; otherwise skip one character (the C code advances ptr without
checking it), parse an integer, require a colon, parse an integer, and
require end of string for a record lock. -/
def scan_lock_id (lock_id : List Char) : Option ParsedLockId :=
  let p1 := strtol10 lock_id
  if p1.2.head? = some ':' then
    let p2 := strtol10 p1.2.tail
    if p2.2 = [] then
      some (ParsedLockId.LOCK_TABLE (toUlint p1.1) (toUlint p2.1))
    else
      let p3 := strtol10 p2.2.tail
      if p3.2.head? = some ':' then
        let p4 := strtol10 p3.2.tail
        if p4.2 = [] then
          some (ParsedLockId.LOCK_REC (toUlint p1.1) (toU32 p2.1)
            (toU32 p3.1) (toUlint p4.1))
        else none
      else none
  else none

/-- Model of print_table_lock_id (p_s.cc:601): snprintf format
TRX_ID_FMT ":" UINT64PF applied to the lock's trx id and table id.  The
two lock accessors are inlined as the two numeric arguments. -/
def print_table_lock_id (trx_id table_id : Nat) : List Char :=
  natDigits trx_id ++ ':' :: natDigits table_id

/-- Model of print_record_lock_id (p_s.cc:620): snprintf format
TRX_ID_FMT ":" SPACE_ID_PF ":" PAGE_NO_PF ":" ULINTPF applied to the
lock's trx id, space id, page id and the given heap number. -/
def print_record_lock_id (trx_id space_id page_id heap_no : Nat) : List Char :=
  natDigits trx_id ++ ':' :: natDigits space_id ++ ':' :: natDigits page_id
    ++ ':' :: natDigits heap_no

/-! ### Lemmas about decimal printing and strtol parsing -/

theorem digit_char_facts : ∀ dd : Nat, dd < 10 →
    ((Char.ofNat (48 + dd)).isDigit = true ∧
     isSpaceChar (Char.ofNat (48 + dd)) = false ∧
     Char.ofNat (48 + dd) ≠ '-' ∧ Char.ofNat (48 + dd) ≠ '+' ∧
     Char.ofNat (48 + dd) ≠ ':' ∧ digitVal (Char.ofNat (48 + dd)) = dd) := by
  decide

theorem natDigitsAux_append : ∀ (fuel n : Nat) (acc : List Char),
    natDigitsAux fuel n acc = natDigitsAux fuel n [] ++ acc := by
  intro fuel
  induction fuel with
  | zero => intro n acc; simp [natDigitsAux]
  | succ fuel ih =>
    intro n acc
    by_cases h : n = 0
    · simp [natDigitsAux, h]
    · simp only [natDigitsAux, if_neg h]
      rw [ih (n / 10) (Char.ofNat (48 + n % 10) :: acc),
        ih (n / 10) [Char.ofNat (48 + n % 10)]]
      simp

theorem natDigitsAux_chars : ∀ (fuel n : Nat), ∀ ch ∈ natDigitsAux fuel n [],
    ∃ dd, dd < 10 ∧ ch = Char.ofNat (48 + dd) := by
  intro fuel
  induction fuel with
  | zero => intro n ch h; simp [natDigitsAux] at h
  | succ fuel ih =>
    intro n ch h
    by_cases h0 : n = 0
    · simp [natDigitsAux, h0] at h
    · rw [show natDigitsAux (fuel + 1) n [] =
          natDigitsAux fuel (n / 10) [Char.ofNat (48 + n % 10)] by
            simp [natDigitsAux, h0],
        natDigitsAux_append] at h
      rcases List.mem_append.mp h with h1 | h1
      · exact ih (n / 10) ch h1
      · simp only [List.mem_singleton] at h1
        exact ⟨n % 10, Nat.mod_lt _ (by norm_num), h1⟩

theorem natDigits_chars (n : Nat) : ∀ ch ∈ natDigits n,
    ch.isDigit = true ∧ isSpaceChar ch = false ∧
    ch ≠ '-' ∧ ch ≠ '+' ∧ ch ≠ ':' := by
  intro ch h
  unfold natDigits at h
  by_cases h0 : n = 0
  · simp [h0] at h
    subst h
    exact ⟨by decide, by decide, by decide, by decide, by decide⟩
  · rw [if_neg h0] at h
    obtain ⟨dd, hdd, rfl⟩ := natDigitsAux_chars n n ch h
    obtain ⟨a, b, c, d, e, _⟩ := digit_char_facts dd hdd
    exact ⟨a, b, c, d, e⟩

theorem natDigitsAux_ne_nil (fuel n : Nat) (hf : fuel ≠ 0) (h0 : n ≠ 0) :
    natDigitsAux fuel n [] ≠ [] := by
  cases fuel with
  | zero => exact absurd rfl hf
  | succ fuel =>
    simp only [natDigitsAux, if_neg h0]
    rw [natDigitsAux_append]
    simp

theorem natDigits_ne_nil (n : Nat) : natDigits n ≠ [] := by
  unfold natDigits
  by_cases h : n = 0
  · simp [h]
  · rw [if_neg h]
    exact natDigitsAux_ne_nil n n h h

theorem natDigitsAux_foldl : ∀ (fuel n a : Nat), n ≤ fuel → n ≠ 0 →
    List.foldl (fun acc ch => acc * 10 + digitVal ch) a (natDigitsAux fuel n [])
      = a * 10 ^ (natDigitsAux fuel n []).length + n := by
  intro fuel
  induction fuel with
  | zero => intro n a hle h0; omega
  | succ fuel ih =>
    intro n a hle h0
    have hstep : natDigitsAux (fuel + 1) n [] =
        natDigitsAux fuel (n / 10) [Char.ofNat (48 + n % 10)] := by
      simp [natDigitsAux, h0]
    have hdv : digitVal (Char.ofNat (48 + n % 10)) = n % 10 :=
      (digit_char_facts (n % 10) (Nat.mod_lt _ (by norm_num))).2.2.2.2.2
    by_cases hq : n / 10 = 0
    · have hone : natDigitsAux fuel (n / 10) [Char.ofNat (48 + n % 10)] =
          [Char.ofNat (48 + n % 10)] := by
        cases fuel <;> simp [natDigitsAux, hq]
      have hn : n < 10 := by
        rcases Nat.lt_or_ge n 10 with h | h
        · exact h
        · exact absurd hq (by have := Nat.one_le_div_iff (by norm_num : 0 < 10) |>.mpr h; omega)
      rw [hstep, hone]
      simp [hdv]
      omega
    · have hlt : n / 10 < n := Nat.div_lt_self (Nat.pos_of_ne_zero h0) (by norm_num)
      have hle2 : n / 10 ≤ fuel := by omega
      rw [hstep, natDigitsAux_append, List.foldl_append, ih (n / 10) a hle2 hq]
      have hdm : 10 * (n / 10) + n % 10 = n := Nat.div_add_mod n 10 ▸ by
        have := Nat.div_add_mod n 10; omega
      simp only [List.foldl_cons, List.foldl_nil, List.length_append,
        List.length_singleton, hdv]
      have hpow : 10 ^ ((natDigitsAux fuel (n / 10) []).length + 1)
          = 10 ^ (natDigitsAux fuel (n / 10) []).length * 10 := pow_succ 10 _
      rw [hpow]
      have : (a * 10 ^ (natDigitsAux fuel (n / 10) []).length + n / 10) * 10 + n % 10
          = a * (10 ^ (natDigitsAux fuel (n / 10) []).length * 10)
            + (10 * (n / 10) + n % 10) := by ring
      rw [this, hdm]

theorem digitsToNat_natDigits (n : Nat) : digitsToNat (natDigits n) = n := by
  unfold digitsToNat natDigits
  by_cases h : n = 0
  · simp [h]; decide
  · rw [if_neg h, natDigitsAux_foldl n n 0 (Nat.le_refl n) h]
    simp

theorem takeWhile_append_of_all (p : Char → Bool) :
    ∀ (l r : List Char), (∀ ch ∈ l, p ch = true) →
      (∀ ch, r.head? = some ch → p ch = false) →
      (l ++ r).takeWhile p = l ∧ (l ++ r).dropWhile p = r := by
  intro l
  induction l with
  | nil =>
    intro r _ hr
    cases r with
    | nil => exact ⟨rfl, rfl⟩
    | cons c cs =>
      constructor
      · simp [List.takeWhile_cons, hr c rfl]
      · simp [List.dropWhile_cons, hr c rfl]
  | cons c cs ih =>
    intro r hl hr
    have hc : p c = true := hl c (by simp)
    have hrec := ih r (fun ch h => hl ch (by simp [h])) hr
    constructor
    · simp [List.takeWhile_cons, hc, hrec.1]
    · simp [List.dropWhile_cons, hc, hrec.2]

theorem skipSpaces_cons_of_not_space {ch : Char} (h : isSpaceChar ch = false)
    (l : List Char) : skipSpaces (ch :: l) = ch :: l := by
  simp [skipSpaces, h]

/-- On input that starts with the full decimal digit string of n followed by
a rest that does not start with a digit, strtol consumes exactly the digits
of n and yields n saturated to the long range. -/
theorem strtol10_printed (n : Nat) (r : List Char)
    (hr : ∀ ch, r.head? = some ch → ch.isDigit = false) :
    strtol10 (natDigits n ++ r) = (clampLong (Int.ofNat n), r) := by
  obtain ⟨c, cs, hcons⟩ : ∃ c cs, natDigits n = c :: cs := by
    cases h : natDigits n with
    | nil => exact absurd h (natDigits_ne_nil n)
    | cons c cs => exact ⟨c, cs, rfl⟩
  have hprops := natDigits_chars n
  have hcmem : c ∈ natDigits n := by rw [hcons]; simp
  obtain ⟨hcdig, hcspace, hcminus, hcplus, _⟩ := hprops c hcmem
  have hsplit := takeWhile_append_of_all Char.isDigit (natDigits n) r
    (fun ch h => (hprops ch h).1) hr
  have hskip : skipSpaces (natDigits n ++ r) = natDigits n ++ r := by
    rw [hcons, List.cons_append, skipSpaces_cons_of_not_space hcspace,
      ← List.cons_append]
  have hhead : (natDigits n ++ r).head? = some c := by
    rw [hcons]; rfl
  have hor : ¬((natDigits n ++ r).head? = some '-'
      ∨ (natDigits n ++ r).head? = some '+') := by
    rw [hhead]; simp [hcminus, hcplus]
  have hneg : ¬((natDigits n ++ r).head? = some '-') := by
    rw [hhead]; simp [hcminus]
  unfold strtol10
  simp only [hskip, if_neg hor]
  rw [hsplit.1, hsplit.2]
  rw [if_neg (by rw [hcons]; simp), if_neg hneg, digitsToNat_natDigits]

theorem clampLong_ofNat {n : Nat} (h : n ≤ 2 ^ 63 - 1) :
    clampLong (Int.ofNat n) = Int.ofNat n := by
  unfold clampLong LONG_MAX LONG_MIN
  rw [if_neg (by simp only [Int.ofNat_eq_natCast]; omega),
    if_neg (by simp only [Int.ofNat_eq_natCast]; omega)]

theorem toUlint_ofNat {n : Nat} (h : n < 2 ^ 64) : toUlint (Int.ofNat n) = n := by
  unfold toUlint
  simp only [Int.ofNat_eq_natCast]
  omega

theorem toU32_ofNat {n : Nat} (h : n < 2 ^ 32) : toU32 (Int.ofNat n) = n := by
  unfold toU32
  simp only [Int.ofNat_eq_natCast]
  omega

theorem head_not_digit_of_colon :
    ∀ ch : Char, (':' :: ([] : List Char)).head? = some ch → ch.isDigit = false := by
  intro ch h
  injection h with h
  rw [← h]
  decide

/-! ### Behaviour of scan_lock_id on structured inputs -/

/-- Two colon-separated integer fields decode as a table lock. -/
theorem scan_lock_id_two_fields (a b : Nat) :
    scan_lock_id (natDigits a ++ ':' :: natDigits b)
      = some (ParsedLockId.LOCK_TABLE (toUlint (clampLong (Int.ofNat a)))
          (toUlint (clampLong (Int.ofNat b)))) := by
  have h1 := strtol10_printed a (':' :: natDigits b)
    (by intro ch h; injection h with h; rw [← h]; decide)
  have h2 := strtol10_printed b [] (by intro ch h; simp at h)
  unfold scan_lock_id
  simp only [h1]
  norm_num
  simp only [List.append_nil] at h2
  simp [h2, natDigits_ne_nil b]

/-- Four integer fields where the separator after the second field is an
arbitrary non-digit character (the C code never checks it) decode as a
record lock. -/
theorem scan_lock_id_four_fields (a b c d : Nat) (sep : Char)
    (hsep : sep.isDigit = false) :
    scan_lock_id (natDigits a ++ ':' :: natDigits b ++ sep :: natDigits c
        ++ ':' :: natDigits d)
      = some (ParsedLockId.LOCK_REC (toUlint (clampLong (Int.ofNat a)))
          (toU32 (clampLong (Int.ofNat b))) (toU32 (clampLong (Int.ofNat c)))
          (toUlint (clampLong (Int.ofNat d)))) := by
  have h1 := strtol10_printed a
    (':' :: (natDigits b ++ sep :: natDigits c ++ ':' :: natDigits d))
    (by intro ch h; injection h with h; rw [← h]; decide)
  have h2 := strtol10_printed b (sep :: natDigits c ++ ':' :: natDigits d)
    (by intro ch h; injection h with h; rw [← h]; exact hsep)
  have h3 := strtol10_printed c (':' :: natDigits d)
    (by intro ch h; injection h with h; rw [← h]; decide)
  have h4 := strtol10_printed d [] (by intro ch h; simp at h)
  simp only [List.append_nil] at h4
  unfold scan_lock_id
  simp only [List.append_assoc, List.cons_append] at h1 h2 h3 ⊢
  simp only [h1]
  norm_num
  simp only [h2]
  norm_num
  simp [h3, h4, natDigits_ne_nil d]

/-- A single integer field (no colon at all) fails to decode. -/
theorem scan_lock_id_one_field (a : Nat) : scan_lock_id (natDigits a) = none := by
  have h1 := strtol10_printed a [] (by intro ch h; simp at h)
  simp only [List.append_nil] at h1
  unfold scan_lock_id
  simp [h1, natDigits_ne_nil a]

/-- A non-colon character right after the first integer field fails. -/
theorem scan_lock_id_bad_sep_one (a : Nat) (sep : Char) (hd : sep.isDigit = false)
    (hc : sep ≠ ':') (g : List Char) :
    scan_lock_id (natDigits a ++ sep :: g) = none := by
  have h1 := strtol10_printed a (sep :: g)
    (by intro ch h; injection h with h; rw [← h]; exact hd)
  unfold scan_lock_id
  simp [h1, hc]

/-- Three colon-separated integer fields fail to decode (the C code, after
the third field, requires a colon but finds the end of the string). -/
theorem scan_lock_id_three_fields (a b c : Nat) :
    scan_lock_id (natDigits a ++ ':' :: natDigits b ++ ':' :: natDigits c)
      = none := by
  have h1 := strtol10_printed a (':' :: (natDigits b ++ ':' :: natDigits c))
    (by intro ch h; injection h with h; rw [← h]; decide)
  have h2 := strtol10_printed b (':' :: natDigits c)
    (by intro ch h; injection h with h; rw [← h]; decide)
  have h3 := strtol10_printed c [] (by intro ch h; simp at h)
  simp only [List.append_nil] at h3
  unfold scan_lock_id
  simp only [List.append_assoc, List.cons_append] at h1 h2 ⊢
  simp only [h1]
  norm_num
  simp only [h2]
  simp [h3, natDigits_ne_nil b, natDigits_ne_nil c]

/-- A non-colon, non-digit character after the third integer field fails. -/
theorem scan_lock_id_bad_sep_three (a b c : Nat) (sep sep2 : Char)
    (hd : sep.isDigit = false) (hd2 : sep2.isDigit = false) (hc2 : sep2 ≠ ':')
    (g : List Char) :
    scan_lock_id (natDigits a ++ ':' :: natDigits b ++ sep :: natDigits c
        ++ sep2 :: g) = none := by
  have h1 := strtol10_printed a
    (':' :: (natDigits b ++ sep :: natDigits c ++ sep2 :: g))
    (by intro ch h; injection h with h; rw [← h]; decide)
  have h2 := strtol10_printed b (sep :: natDigits c ++ sep2 :: g)
    (by intro ch h; injection h with h; rw [← h]; exact hd)
  have h3 := strtol10_printed c (sep2 :: g)
    (by intro ch h; injection h with h; rw [← h]; exact hd2)
  unfold scan_lock_id
  simp only [List.append_assoc, List.cons_append] at h1 h2 h3 ⊢
  simp only [h1]
  norm_num
  simp only [h2]
  norm_num
  simp [h3, hc2]

/-- Trailing garbage after the fourth integer field fails. -/
theorem scan_lock_id_trailing (a b c d : Nat) (sep x : Char)
    (hd : sep.isDigit = false) (hx : x.isDigit = false) (g : List Char) :
    scan_lock_id (natDigits a ++ ':' :: natDigits b ++ sep :: natDigits c
        ++ ':' :: natDigits d ++ x :: g) = none := by
  have h1 := strtol10_printed a
    (':' :: (natDigits b ++ sep :: natDigits c ++ ':' :: natDigits d ++ x :: g))
    (by intro ch h; injection h with h; rw [← h]; decide)
  have h2 := strtol10_printed b (sep :: natDigits c ++ ':' :: natDigits d ++ x :: g)
    (by intro ch h; injection h with h; rw [← h]; exact hd)
  have h3 := strtol10_printed c (':' :: (natDigits d ++ x :: g))
    (by intro ch h; injection h with h; rw [← h]; decide)
  have h4 := strtol10_printed d (x :: g)
    (by intro ch h; injection h with h; rw [← h]; exact hx)
  unfold scan_lock_id
  simp only [List.append_assoc, List.cons_append] at h1 h2 h3 h4 ⊢
  simp only [h1]
  norm_num
  simp only [h2]
  norm_num
  simp [h3, h4]

/-! ## The restartable scan state machine (Innodb_trx_scan_state)

trx_id_t is an unsigned 64-bit integer; TRX_ID_MAX is its maximal value
and is used as the "no hint recorded" sentinel.  The range end
m_start_trx_id_range + SCAN_RANGE is computed in uint64 arithmetic and can
wrap around, which the model keeps (mod 2^64). -/

/-- Maximal trx_id_t value (sentinel for "next range unknown"). -/
def TRX_ID_MAX : Nat := 2 ^ 64 - 1

/-- The fixed range width SCAN_RANGE of Innodb_trx_scan_state. -/
def SCAN_RANGE : Nat := 256

/-- Pass of a given scan (enum scan_pass, p_s.cc:150). -/
inductive scan_pass where
  | INIT_SCANNING
  | SCANNING_RW_TRX_LIST
  | SCANNING_MYSQL_TRX_LIST
  | DONE_SCANNING
deriving DecidableEq, Repr

/-- State of a given scan (class Innodb_trx_scan_state, p_s.cc:173). -/
structure Innodb_trx_scan_state where
  m_scan_pass : scan_pass
  m_start_trx_id_range : Nat
  m_end_trx_id_range : Nat
  m_next_trx_id_range : Nat
deriving DecidableEq, Repr

/-- The constructor's initial state (p_s.cc:178). -/
def initial_scan_state : Innodb_trx_scan_state :=
  { m_scan_pass := scan_pass.INIT_SCANNING
    m_start_trx_id_range := 0
    m_end_trx_id_range := SCAN_RANGE
    m_next_trx_id_range := TRX_ID_MAX }

/-- Model of Innodb_trx_scan_state::prepare_next_scan (p_s.cc:199).
The uint64 addition m_start + SCAN_RANGE is taken mod 2^64.  The
DONE_SCANNING case of the switch executes ut_error (a fatal abort),
modelled as none. -/
def prepare_next_scan (s : Innodb_trx_scan_state) :
    Option Innodb_trx_scan_state :=
  if s.m_next_trx_id_range ≠ TRX_ID_MAX then
    let start := s.m_next_trx_id_range - s.m_next_trx_id_range % SCAN_RANGE
    some { m_scan_pass := s.m_scan_pass
           m_start_trx_id_range := start
           m_end_trx_id_range := (start + SCAN_RANGE) % 2 ^ 64
           m_next_trx_id_range := TRX_ID_MAX }
  else
    match s.m_scan_pass with
    | scan_pass.INIT_SCANNING =>
      some { m_scan_pass := scan_pass.SCANNING_RW_TRX_LIST
             m_start_trx_id_range := 0
             m_end_trx_id_range := SCAN_RANGE
             m_next_trx_id_range := TRX_ID_MAX }
    | scan_pass.SCANNING_RW_TRX_LIST =>
      some { m_scan_pass := scan_pass.SCANNING_MYSQL_TRX_LIST
             m_start_trx_id_range := 0
             m_end_trx_id_range := SCAN_RANGE
             m_next_trx_id_range := TRX_ID_MAX }
    | scan_pass.SCANNING_MYSQL_TRX_LIST =>
      some { s with m_scan_pass := scan_pass.DONE_SCANNING }
    | scan_pass.DONE_SCANNING => none

/-- Model of Innodb_trx_scan_state::trx_id_in_range (p_s.cc:237): the
membership answer plus the state after the hint-update side effect. -/
def trx_id_in_range (s : Innodb_trx_scan_state) (trx_id : Nat) :
    Bool × Innodb_trx_scan_state :=
  if s.m_start_trx_id_range ≤ trx_id ∧ trx_id < s.m_end_trx_id_range then
    (true, s)
  else if s.m_end_trx_id_range ≤ trx_id ∧ trx_id < s.m_next_trx_id_range then
    (false, { s with m_next_trx_id_range := trx_id })
  else
    (false, s)

/-- Apply a sequence of trx_id_in_range queries, keeping only the state. -/
def apply_in_range_queries (s : Innodb_trx_scan_state) (ids : List Nat) :
    Innodb_trx_scan_state :=
  ids.foldl (fun st trx_id => (trx_id_in_range st trx_id).2) s

/-- Events of one scan session touching the scan state. -/
inductive ScanEvent where
  | query (trx_id : Nat)
  | advance
deriving DecidableEq, Repr

/-- Run a list of scan-state events; none if prepare_next_scan aborts. -/
def runScanEvents (s : Innodb_trx_scan_state) :
    List ScanEvent → Option Innodb_trx_scan_state
  | [] => some s
  | ScanEvent.query trx_id :: evs =>
    runScanEvents (trx_id_in_range s trx_id).2 evs
  | ScanEvent.advance :: evs =>
    match prepare_next_scan s with
    | none => none
    | some t => runScanEvents t evs

/-- Numeric index of a pass in the intended order. -/
def passIdx : scan_pass → Nat
  | scan_pass.INIT_SCANNING => 0
  | scan_pass.SCANNING_RW_TRX_LIST => 1
  | scan_pass.SCANNING_MYSQL_TRX_LIST => 2
  | scan_pass.DONE_SCANNING => 3

/-- Well-formedness of a scan state within a pass, assuming all observed
transaction ids stay below 2^64 - SCAN_RANGE (so that the range-end
addition cannot wrap): the range is an aligned window of width SCAN_RANGE
and any recorded hint lies at or beyond the window end. -/
def scanInv (s : Innodb_trx_scan_state) : Prop :=
  s.m_end_trx_id_range = s.m_start_trx_id_range + SCAN_RANGE ∧
  s.m_start_trx_id_range % SCAN_RANGE = 0 ∧
  (s.m_next_trx_id_range = TRX_ID_MAX ∨
    (s.m_end_trx_id_range ≤ s.m_next_trx_id_range ∧
     s.m_next_trx_id_range < 2 ^ 64 - SCAN_RANGE))

theorem trx_id_in_range_state (s : Innodb_trx_scan_state) (trx_id : Nat) :
    (trx_id_in_range s trx_id).2.m_scan_pass = s.m_scan_pass ∧
    (trx_id_in_range s trx_id).2.m_start_trx_id_range = s.m_start_trx_id_range ∧
    (trx_id_in_range s trx_id).2.m_end_trx_id_range = s.m_end_trx_id_range := by
  unfold trx_id_in_range
  split
  · exact ⟨rfl, rfl, rfl⟩
  · split
    · exact ⟨rfl, rfl, rfl⟩
    · exact ⟨rfl, rfl, rfl⟩

theorem trx_id_in_range_inv {s : Innodb_trx_scan_state} {trx_id : Nat}
    (hs : scanInv s) (hid : trx_id < 2 ^ 64 - SCAN_RANGE) :
    scanInv (trx_id_in_range s trx_id).2 := by
  obtain ⟨h1, h2, h3⟩ := hs
  unfold trx_id_in_range
  split
  · exact ⟨h1, h2, h3⟩
  · split
    · next hcond =>
      exact ⟨h1, h2, Or.inr ⟨hcond.1, hid⟩⟩
    · exact ⟨h1, h2, h3⟩

theorem apply_in_range_queries_spec :
    ∀ (ids : List Nat) (s : Innodb_trx_scan_state), scanInv s →
      (∀ trx_id ∈ ids, trx_id < 2 ^ 64 - SCAN_RANGE) →
      scanInv (apply_in_range_queries s ids) ∧
      (apply_in_range_queries s ids).m_scan_pass = s.m_scan_pass ∧
      (apply_in_range_queries s ids).m_start_trx_id_range
        = s.m_start_trx_id_range ∧
      (apply_in_range_queries s ids).m_end_trx_id_range
        = s.m_end_trx_id_range := by
  intro ids
  induction ids with
  | nil => intro s hs _; exact ⟨hs, rfl, rfl, rfl⟩
  | cons trx_id ids ih =>
    intro s hs hb
    have hinv := trx_id_in_range_inv hs (hb trx_id (by simp))
    have hst := trx_id_in_range_state s trx_id
    have hrec := ih (trx_id_in_range s trx_id).2 hinv
      (fun i hi => hb i (by simp [hi]))
    refine ⟨hrec.1, ?_, ?_, ?_⟩
    · rw [show apply_in_range_queries s (trx_id :: ids)
          = apply_in_range_queries (trx_id_in_range s trx_id).2 ids from rfl,
        hrec.2.1, hst.1]
    · rw [show apply_in_range_queries s (trx_id :: ids)
          = apply_in_range_queries (trx_id_in_range s trx_id).2 ids from rfl,
        hrec.2.2.1, hst.2.1]
    · rw [show apply_in_range_queries s (trx_id :: ids)
          = apply_in_range_queries (trx_id_in_range s trx_id).2 ids from rfl,
        hrec.2.2.2, hst.2.2]

/-- When a hint is recorded and the invariant holds, advancing keeps the
pass, starts the new range at or after the previous end, keeps the aligned
width-SCAN_RANGE shape, and clears the hint. -/
theorem prepare_next_scan_hint {s : Innodb_trx_scan_state}
    (hs : scanInv s) (hn : s.m_next_trx_id_range ≠ TRX_ID_MAX) :
    ∃ u, prepare_next_scan s = some u ∧
      u.m_scan_pass = s.m_scan_pass ∧
      s.m_end_trx_id_range ≤ u.m_start_trx_id_range ∧
      u.m_end_trx_id_range = u.m_start_trx_id_range + SCAN_RANGE ∧
      s.m_end_trx_id_range < u.m_end_trx_id_range ∧
      scanInv u := by
  obtain ⟨h1, h2, h3⟩ := hs
  rcases h3 with h3 | ⟨h3a, h3b⟩
  · exact absurd h3 hn
  simp only [SCAN_RANGE] at h1 h2 h3a h3b
  obtain ⟨k, hk⟩ := Nat.dvd_of_mod_eq_zero h2
  have hq := Nat.div_add_mod s.m_next_trx_id_range 256
  have hr : s.m_next_trx_id_range % 256 < 256 := Nat.mod_lt _ (by norm_num)
  have hub : s.m_next_trx_id_range - s.m_next_trx_id_range % 256 + 256
      < 2 ^ 64 := by omega
  have hge : s.m_end_trx_id_range
      ≤ s.m_next_trx_id_range - s.m_next_trx_id_range % 256 := by omega
  unfold prepare_next_scan
  rw [if_pos hn]
  refine ⟨_, rfl, rfl, ?_, ?_, ?_, ?_⟩
  · simpa only [SCAN_RANGE] using hge
  · dsimp only
    simp only [SCAN_RANGE]
    rw [Nat.mod_eq_of_lt hub]
  · dsimp only
    simp only [SCAN_RANGE]
    rw [Nat.mod_eq_of_lt hub]
    omega
  · dsimp only
    refine ⟨?_, ?_, Or.inl rfl⟩
    · simp only [SCAN_RANGE]
      rw [Nat.mod_eq_of_lt hub]
    · simp only [SCAN_RANGE]
      omega

/-- A successful advance keeps the pass (hint branch) or moves it to the
immediately following pass. -/
theorem prepare_next_scan_pass_step {s t : Innodb_trx_scan_state}
    (h : prepare_next_scan s = some t) :
    t.m_scan_pass = s.m_scan_pass ∨
      passIdx t.m_scan_pass = passIdx s.m_scan_pass + 1 := by
  unfold prepare_next_scan at h
  split at h
  · injection h with h
    subst h
    left
    rfl
  · cases hsp : s.m_scan_pass <;> rw [hsp] at h
    · injection h with h
      subst h
      right
      rfl
    · injection h with h
      subst h
      right
      rfl
    · injection h with h
      subst h
      right
      rfl
    · exact absurd h (by simp)

/-- Over any event sequence the pass index never decreases. -/
theorem runScanEvents_pass_mono :
    ∀ (evs : List ScanEvent) (s t : Innodb_trx_scan_state),
      runScanEvents s evs = some t →
      passIdx s.m_scan_pass ≤ passIdx t.m_scan_pass := by
  intro evs
  induction evs with
  | nil =>
    intro s t h
    injection h with h
    subst h
    exact Nat.le_refl _
  | cons ev evs ih =>
    intro s t h
    cases ev with
    | query trx_id =>
      have hrec := ih (trx_id_in_range s trx_id).2 t h
      rw [(trx_id_in_range_state s trx_id).1] at hrec
      exact hrec
    | advance =>
      cases hp : prepare_next_scan s with
      | none =>
        rw [runScanEvents, hp] at h
        exact absurd h (by simp)
      | some u =>
        rw [runScanEvents, hp] at h
        have hrec := ih u t h
        rcases prepare_next_scan_pass_step hp with he | he
        · rw [he] at hrec
          exact hrec
        · omega

/-! ## Data model: locks, transactions, consumer containers

These model the accessors of the external lock/transaction manager that
p_s.cc reads (all observed under the two mutexes). -/

/-- Kind and resource key of a lock.  A record lock's bitmap of held row
slots is modelled as the increasing list of its set heap numbers;
lock_rec_find_set_bit returns the first element and
lock_rec_find_next_set_bit steps through the rest in order. -/
inductive LockKind where
  | LOCK_TABLE (table_id : Nat)
  | LOCK_REC (space_id : Nat) (page_id : Nat) (heap_bits : List Nat)
deriving DecidableEq, Repr

/-- A lock as observed through the accessors used by p_s.cc.  tag models
pointer identity (the comparison lock == wait_lock in the C code is a
pointer comparison). -/
structure Lock where
  tag : Nat
  trx_id : Nat
  thread_id : Nat
  event_id : Nat
  table_path : Nat
  kind : LockKind
deriving DecidableEq, Repr

/-- ULINT_UNDEFINED: (ulint)(-1). -/
def ULINT_UNDEFINED : Nat := 2 ^ 64 - 1

/-- lock_rec_find_set_bit: first set bit of the record bitmap, or
ULINT_UNDEFINED when no bit is set. -/
def lock_rec_find_set_bit (bits : List Nat) : Nat :=
  match bits with
  | [] => ULINT_UNDEFINED
  | b :: _ => b

/-- The C lock-type constants LOCK_TABLE and LOCK_REC (lock0lock.h) as
returned by lock_get_type; scan_lock_id returns 0 for a format error. -/
def lock_get_type (k : LockKind) : Nat :=
  match k with
  | LockKind.LOCK_TABLE _ => 16
  | LockKind.LOCK_REC _ _ _ => 32

/-- trx_que_state (trx0trx.h). -/
inductive trx_que_state where
  | TRX_QUE_RUNNING
  | TRX_QUE_LOCK_WAIT
  | TRX_QUE_ROLLING_BACK
  | TRX_QUE_COMMITTING
deriving DecidableEq, Repr

/-- A transaction as observed through the accessors used by p_s.cc.
trx_locks is the transaction's lock list in iteration order
(lock_get_first_trx_locks / lock_get_next_trx_locks); wait_lock is
trx->lock.wait_lock; wait_queue lists the locks the conflict-queue
iterator (lock_queue_iterator_get_prev on the wait lock) yields, in
iteration order. -/
structure Trx where
  trx_id : Nat
  is_started : Bool
  read_only : Bool
  que_state : trx_que_state
  wait_lock : Option Lock
  wait_queue : List Lock
  trx_locks : List Lock
deriving DecidableEq, Repr

/-- Lock status string reported in a data-lock row. -/
inductive LockStatus where
  | GRANTED
  | WAITING
deriving DecidableEq, Repr

/-- The fields of an emitted data-lock row that the claims are about. -/
structure LockRow where
  engine_lock_id : List Char
  trx_id : Nat
  status : LockStatus
  lock_tag : Nat
deriving DecidableEq, Repr

/-- Consumer contract used by the data-lock iterator
(PSI_server_data_lock_container): the accept callbacks p_s.cc invokes.
accept_object is modelled on the abstract table-path token (schema/table
charset decomposition is thin formatting outside the core). -/
structure DataLockContainer where
  accept_engine : Bool
  accept_transaction_id : Nat → Bool
  accept_thread_id_event_id : Nat → Nat → Bool
  accept_object : Nat → Bool
  accept_lock_id : List Char → Bool

/-- Model of print_lock_id (p_s.cc:643): dispatch on the lock type. -/
def print_lock_id (lock : Lock) (heap_no : Nat) : List Char :=
  match lock.kind with
  | LockKind.LOCK_TABLE tid => print_table_lock_id lock.trx_id tid
  | LockKind.LOCK_REC sp pg _ => print_record_lock_id lock.trx_id sp pg heap_no

/-- Model of discard_trx (p_s.cc:412). -/
def discard_trx (trx : Trx) (read_write : Bool) : Bool :=
  if ¬ trx.is_started then true
  else if ¬ read_write ∧ trx.trx_id ≠ 0 ∧ ¬ trx.read_only then true
  else false

/-- Model of fetch_trx_in_trx_list (p_s.cc:434). -/
def fetch_trx_in_trx_list (trx_id : Nat) (read_write : Bool)
    (trx_list : List Trx) : Option Trx :=
  trx_list.find? (fun trx =>
    !(discard_trx trx read_write) && (trx.trx_id == trx_id))

/-! ## The data-lock enumerator (Innodb_data_lock_iterator) -/

/-- The lock loop of Innodb_data_lock_iterator::scan_trx (p_s.cc:965).
sticky carries the C variable lock_status_str (true = "WAITING"): it is
initialized once before the loop, set when the walked lock is the
transaction's wait lock, and never reset afterwards.  The filter scalars
mirror the C parameters; with_filter = false ignores them. -/
def scan_trx_lock_rows
    (container : DataLockContainer)
    (row_trx_id : Nat) (wait_tag : Option Nat)
    (with_filter : Bool)
    (filter_record_type filter_table_id filter_space_id filter_page_id
      filter_heap_id : Nat) :
    List Lock → Bool → List LockRow
  | [], _ => []
  | lock :: rest, sticky =>
    let record_type := lock_get_type lock.kind
    let filter_skip : Bool :=
      if with_filter then
        if record_type ≠ filter_record_type then true
        else
          match lock.kind with
          | LockKind.LOCK_TABLE tid => decide (tid ≠ filter_table_id)
          | LockKind.LOCK_REC sp pg _ =>
            decide (sp ≠ filter_space_id ∨ pg ≠ filter_page_id)
      else false
    if filter_skip then
      scan_trx_lock_rows container row_trx_id wait_tag with_filter
        filter_record_type filter_table_id filter_space_id filter_page_id
        filter_heap_id rest sticky
    else if ¬ container.accept_thread_id_event_id lock.thread_id
        lock.event_id then
      scan_trx_lock_rows container row_trx_id wait_tag with_filter
        filter_record_type filter_table_id filter_space_id filter_page_id
        filter_heap_id rest sticky
    else if ¬ container.accept_object lock.table_path then
      scan_trx_lock_rows container row_trx_id wait_tag with_filter
        filter_record_type filter_table_id filter_space_id filter_page_id
        filter_heap_id rest sticky
    else
      let sticky2 := sticky || decide (some lock.tag = wait_tag)
      let status := if sticky2 then LockStatus.WAITING else LockStatus.GRANTED
      let rows :=
        match lock.kind with
        | LockKind.LOCK_TABLE tid =>
          let lid := print_table_lock_id lock.trx_id tid
          if container.accept_lock_id lid then
            [{ engine_lock_id := lid, trx_id := row_trx_id, status := status,
               lock_tag := lock.tag }]
          else []
        | LockKind.LOCK_REC sp pg bits =>
          bits.filterMap (fun heap_no =>
            if ¬ with_filter ∨ heap_no = filter_heap_id then
              let lid := print_record_lock_id lock.trx_id sp pg heap_no
              if container.accept_lock_id lid then
                some { engine_lock_id := lid, trx_id := row_trx_id,
                       status := status, lock_tag := lock.tag }
              else none
            else none)
      rows ++ scan_trx_lock_rows container row_trx_id wait_tag with_filter
        filter_record_type filter_table_id filter_space_id filter_page_id
        filter_heap_id rest sticky2

/-- Model of Innodb_data_lock_iterator::scan_trx (p_s.cc:916); returns the
rows added to the container (found is their count).  The with_lock_data
flag only selects the optional LOCK_DATA payload and is not modelled. -/
def Innodb_data_lock_iterator_scan_trx
    (container : DataLockContainer) (trx : Trx)
    (with_filter : Bool)
    (filter_record_type filter_table_id filter_space_id filter_page_id
      filter_heap_id : Nat) : List LockRow :=
  if ¬ container.accept_transaction_id trx.trx_id then []
  else
    scan_trx_lock_rows container trx.trx_id (trx.wait_lock.map Lock.tag)
      with_filter filter_record_type filter_table_id filter_space_id
      filter_page_id filter_heap_id trx.trx_locks false

/-- Model of Innodb_data_lock_iterator::scan_trx_list (p_s.cc:859),
threading the scan state through the trx_id_in_range side effects. -/
def Innodb_data_lock_iterator_scan_trx_list
    (container : DataLockContainer) (read_write : Bool) :
    List Trx → Innodb_trx_scan_state →
    Innodb_trx_scan_state × List LockRow
  | [], st => (st, [])
  | trx :: rest, st =>
    if discard_trx trx read_write then
      Innodb_data_lock_iterator_scan_trx_list container read_write rest st
    else
      let r := trx_id_in_range st trx.trx_id
      if r.1 then
        let rows := Innodb_data_lock_iterator_scan_trx container trx
          false 0 0 0 0 0
        let rest_r := Innodb_data_lock_iterator_scan_trx_list container
          read_write rest r.2
        (rest_r.1, rows ++ rest_r.2)
      else
        Innodb_data_lock_iterator_scan_trx_list container read_write rest r.2

/-- One of the two while loops of Innodb_data_lock_iterator::scan
(p_s.cc:762, 772): while the pass equals target and nothing has been
found, scan the list and advance.  Fueled; none models non-termination
within the fuel or a fatal prepare_next_scan. -/
def scan_pass_loop
    (container : DataLockContainer) (read_write : Bool)
    (target : scan_pass) (trx_list : List Trx) :
    Nat → Innodb_trx_scan_state → List LockRow →
    Option (Innodb_trx_scan_state × List LockRow)
  | 0, _, _ => none
  | fuel + 1, st, rows =>
    if st.m_scan_pass = target ∧ rows = [] then
      let r := Innodb_data_lock_iterator_scan_trx_list container read_write
        trx_list st
      match prepare_next_scan r.1 with
      | none => none
      | some st2 =>
        scan_pass_loop container read_write target trx_list fuel st2
          (rows ++ r.2)
    else some (st, rows)

/-- Model of Innodb_data_lock_iterator::scan (p_s.cc:739).  Returns the
final scan state, the rows emitted during the call, and the C return
value (true = the scan is finished, false = more data may be pending). -/
def Innodb_data_lock_iterator_scan
    (container : DataLockContainer) (fuel : Nat)
    (st0 : Innodb_trx_scan_state) (rw_trx_list mysql_trx_list : List Trx) :
    Option (Innodb_trx_scan_state × List LockRow × Bool) :=
  if st0.m_scan_pass = scan_pass.INIT_SCANNING ∧ ¬ container.accept_engine
  then some (st0, [], true)
  else
    match (if st0.m_scan_pass = scan_pass.INIT_SCANNING then
        prepare_next_scan st0 else some st0) with
    | none => none
    | some st1 =>
      if st1.m_scan_pass = scan_pass.DONE_SCANNING then some (st1, [], true)
      else
        match scan_pass_loop container true scan_pass.SCANNING_RW_TRX_LIST
            rw_trx_list fuel st1 [] with
        | none => none
        | some r2 =>
          match scan_pass_loop container false
              scan_pass.SCANNING_MYSQL_TRX_LIST mysql_trx_list fuel
              r2.1 r2.2 with
          | none => none
          | some r3 => some (r3.1, r3.2, false)

/-- SPACE_UNKNOWN (fil0fil.h), stored by scan_lock_id for table locks. -/
def SPACE_UNKNOWN : Nat := 2 ^ 32 - 2

/-- FIL_NULL (fil0fil.h), stored by scan_lock_id for table locks. -/
def FIL_NULL : Nat := 2 ^ 32 - 1

/-- The *trx_id output of scan_lock_id. -/
def parsed_trx_id : ParsedLockId → Nat
  | ParsedLockId.LOCK_TABLE t _ => t
  | ParsedLockId.LOCK_REC t _ _ _ => t

/-- The return value of scan_lock_id (the C lock-type constant). -/
def parsed_record_type : ParsedLockId → Nat
  | ParsedLockId.LOCK_TABLE _ _ => 16
  | ParsedLockId.LOCK_REC _ _ _ _ => 32

/-- The *table_id output of scan_lock_id. -/
def parsed_table_id : ParsedLockId → Nat
  | ParsedLockId.LOCK_TABLE _ tid => tid
  | ParsedLockId.LOCK_REC _ _ _ _ => 0

/-- The *space_id output of scan_lock_id. -/
def parsed_space_id : ParsedLockId → Nat
  | ParsedLockId.LOCK_TABLE _ _ => SPACE_UNKNOWN
  | ParsedLockId.LOCK_REC _ sp _ _ => sp

/-- The *page_id output of scan_lock_id. -/
def parsed_page_id : ParsedLockId → Nat
  | ParsedLockId.LOCK_TABLE _ _ => FIL_NULL
  | ParsedLockId.LOCK_REC _ _ pg _ => pg

/-- The *heap_id output of scan_lock_id. -/
def parsed_heap_id : ParsedLockId → Nat
  | ParsedLockId.LOCK_TABLE _ _ => ULINT_UNDEFINED
  | ParsedLockId.LOCK_REC _ _ _ h => h

/-- Model of Innodb_data_lock_iterator::fetch (p_s.cc:789).  The Bool in
the result records whether the lock-subsystem and trx-sys mutexes were
acquired during the call (in the C they are always taken together, after
a successful decode, and released before returning). -/
def Innodb_data_lock_iterator_fetch
    (container : DataLockContainer) (engine_lock_id : List Char)
    (rw_trx_list mysql_trx_list : List Trx) : List LockRow × Bool :=
  if ¬ container.accept_engine then ([], false)
  else
    match scan_lock_id engine_lock_id with
    | none => ([], false)
    | some parsed =>
      let trx1 := fetch_trx_in_trx_list (parsed_trx_id parsed) true
        rw_trx_list
      let trx2 :=
        match trx1 with
        | some t => some t
        | none => fetch_trx_in_trx_list (parsed_trx_id parsed) false
            mysql_trx_list
      match trx2 with
      | none => ([], true)
      | some trx =>
        (Innodb_data_lock_iterator_scan_trx container trx true
          (parsed_record_type parsed) (parsed_table_id parsed)
          (parsed_space_id parsed) (parsed_page_id parsed)
          (parsed_heap_id parsed), true)

/-! ## The wait-edge enumerator (Innodb_data_lock_wait_iterator) -/

/-- Consumer contract used by the wait iterator
(PSI_server_data_lock_wait_container). -/
structure DataLockWaitContainer where
  accept_engine : Bool
  accept_requesting_transaction_id : Nat → Bool
  accept_requesting_thread_id_event_id : Nat → Nat → Bool
  accept_requesting_lock_id : List Char → Bool
  accept_blocking_transaction_id : Nat → Bool
  accept_blocking_thread_id_event_id : Nat → Nat → Bool
  accept_blocking_lock_id : List Char → Bool

/-- The fields of an emitted wait-edge row the claims are about. -/
structure WaitRow where
  requesting_engine_lock_id : List Char
  requesting_trx_id : Nat
  requesting_lock_tag : Nat
  blocking_engine_lock_id : List Char
  blocking_trx_id : Nat
  blocking_lock_tag : Nat
deriving DecidableEq, Repr

/-- The blocking-side filter skip test of the conflict-queue loop
(p_s.cc:1445): with a filter, skip unless kind and full resource key
(including the candidate's own first set bit) match. -/
def wait_blocking_filter_skip (with_filter : Bool)
    (filter_blocking_record_type filter_blocking_table_id
      filter_blocking_space_id filter_blocking_page_id
      filter_blocking_heap_id : Nat) (curr_lock : Lock) : Bool :=
  if with_filter then
    if lock_get_type curr_lock.kind ≠ filter_blocking_record_type then true
    else
      match curr_lock.kind with
      | LockKind.LOCK_TABLE tid =>
        decide (tid ≠ filter_blocking_table_id)
      | LockKind.LOCK_REC sp pg bits =>
        decide (sp ≠ filter_blocking_space_id ∨
          pg ≠ filter_blocking_page_id ∨
          lock_rec_find_set_bit bits ≠ filter_blocking_heap_id)
  else false

/-- The conflict-queue loop of Innodb_data_lock_wait_iterator::scan_trx
(p_s.cc:1442).  lock_has_to_wait is the external manager's conflict
predicate; heap_no is the requesting heap number computed before the
loop.  Note that the blocking lock id is printed with this same heap_no
(p_s.cc:1493). -/
def wait_queue_rows
    (container : DataLockWaitContainer)
    (lock_has_to_wait : Lock → Lock → Bool)
    (wait_lock : Lock) (heap_no : Nat)
    (requesting_engine_lock_id : List Char) (requesting_trx_id : Nat)
    (with_filter : Bool)
    (filter_blocking_record_type filter_blocking_table_id
      filter_blocking_space_id filter_blocking_page_id
      filter_blocking_heap_id : Nat) :
    List Lock → List WaitRow
  | [] => []
  | curr_lock :: rest =>
    let tail_rows := wait_queue_rows container lock_has_to_wait wait_lock
      heap_no requesting_engine_lock_id requesting_trx_id with_filter
      filter_blocking_record_type filter_blocking_table_id
      filter_blocking_space_id filter_blocking_page_id
      filter_blocking_heap_id rest
    if wait_blocking_filter_skip with_filter filter_blocking_record_type
        filter_blocking_table_id filter_blocking_space_id
        filter_blocking_page_id filter_blocking_heap_id curr_lock then
      tail_rows
    else if lock_has_to_wait wait_lock curr_lock then
      if ¬ container.accept_blocking_transaction_id curr_lock.trx_id then
        tail_rows
      else if ¬ container.accept_blocking_thread_id_event_id
          curr_lock.thread_id curr_lock.event_id then
        tail_rows
      else
        let blocking_id := print_lock_id curr_lock heap_no
        if ¬ container.accept_blocking_lock_id blocking_id then tail_rows
        else
          { requesting_engine_lock_id := requesting_engine_lock_id
            requesting_trx_id := requesting_trx_id
            requesting_lock_tag := wait_lock.tag
            blocking_engine_lock_id := blocking_id
            blocking_trx_id := curr_lock.trx_id
            blocking_lock_tag := curr_lock.tag } :: tail_rows
    else tail_rows

/-- The requesting-side filter test of
Innodb_data_lock_wait_iterator::scan_trx (p_s.cc:1382): with a filter,
the awaited lock must match the requesting filter exactly (for record
locks including its first set bit). -/
def wait_requesting_filter_ok (with_filter : Bool)
    (filter_requesting_record_type filter_requesting_table_id
      filter_requesting_space_id filter_requesting_page_id
      filter_requesting_heap_id : Nat) (wait_lock : Lock) : Bool :=
  if with_filter then
    if lock_get_type wait_lock.kind ≠ filter_requesting_record_type then
      false
    else
      match wait_lock.kind with
      | LockKind.LOCK_TABLE tid =>
        decide (tid = filter_requesting_table_id)
      | LockKind.LOCK_REC sp pg bits =>
        decide (sp = filter_requesting_space_id ∧
          pg = filter_requesting_page_id ∧
          lock_rec_find_set_bit bits = filter_requesting_heap_id)
  else true

/-- The requesting heap number of p_s.cc:1423: 0, overwritten with the
wait lock's first set bit for record locks. -/
def requesting_heap_no (wait_lock : Lock) : Nat :=
  match wait_lock.kind with
  | LockKind.LOCK_TABLE _ => 0
  | LockKind.LOCK_REC _ _ bits => lock_rec_find_set_bit bits

/-- Model of Innodb_data_lock_wait_iterator::scan_trx (p_s.cc:1337).
none models the fatal assertion ut_a(wait_lock != NULL). -/
def Innodb_data_lock_wait_iterator_scan_trx
    (container : DataLockWaitContainer)
    (lock_has_to_wait : Lock → Lock → Bool)
    (trx : Trx) (with_filter : Bool)
    (filter_requesting_record_type filter_requesting_table_id
      filter_requesting_space_id filter_requesting_page_id
      filter_requesting_heap_id
      filter_blocking_record_type filter_blocking_table_id
      filter_blocking_space_id filter_blocking_page_id
      filter_blocking_heap_id : Nat) : Option (List WaitRow) :=
  if trx.que_state ≠ trx_que_state.TRX_QUE_LOCK_WAIT then some []
  else
    match trx.wait_lock with
    | none => none
    | some wait_lock =>
      if ¬ wait_requesting_filter_ok with_filter
          filter_requesting_record_type filter_requesting_table_id
          filter_requesting_space_id filter_requesting_page_id
          filter_requesting_heap_id wait_lock then some []
      else if ¬ container.accept_requesting_transaction_id trx.trx_id then
        some []
      else if ¬ container.accept_requesting_thread_id_event_id
          wait_lock.thread_id wait_lock.event_id then
        some []
      else
        let heap_no := requesting_heap_no wait_lock
        let requesting_engine_lock_id := print_lock_id wait_lock heap_no
        if ¬ container.accept_requesting_lock_id requesting_engine_lock_id
        then some []
        else
          some (wait_queue_rows container lock_has_to_wait wait_lock
            heap_no requesting_engine_lock_id trx.trx_id with_filter
            filter_blocking_record_type filter_blocking_table_id
            filter_blocking_space_id filter_blocking_page_id
            filter_blocking_heap_id trx.wait_queue)

/-- Model of Innodb_data_lock_wait_iterator::fetch (p_s.cc:1181).  The
Bool records whether the mutexes were acquired during the call. -/
def Innodb_data_lock_wait_iterator_fetch
    (container : DataLockWaitContainer)
    (lock_has_to_wait : Lock → Lock → Bool)
    (requesting_engine_lock_id blocking_engine_lock_id : List Char)
    (rw_trx_list mysql_trx_list : List Trx) :
    Option (List WaitRow) × Bool :=
  if ¬ container.accept_engine then (some [], false)
  else
    match scan_lock_id requesting_engine_lock_id with
    | none => (some [], false)
    | some preq =>
      match scan_lock_id blocking_engine_lock_id with
      | none => (some [], false)
      | some pblk =>
        let trx1 := fetch_trx_in_trx_list (parsed_trx_id preq) true
          rw_trx_list
        let trx2 :=
          match trx1 with
          | some t => some t
          | none => fetch_trx_in_trx_list (parsed_trx_id preq) false
              mysql_trx_list
        match trx2 with
        | none => (some [], true)
        | some trx =>
          (Innodb_data_lock_wait_iterator_scan_trx container
            lock_has_to_wait trx true
            (parsed_record_type preq) (parsed_table_id preq)
            (parsed_space_id preq) (parsed_page_id preq)
            (parsed_heap_id preq)
            (parsed_record_type pblk) (parsed_table_id pblk)
            (parsed_space_id pblk) (parsed_page_id pblk)
            (parsed_heap_id pblk), true)

/-! ## Helper lemmas about the enumerators -/

/-- The conflict-queue loop emits exactly one row per candidate that
passes the blocking filter, the conflict predicate and the three
blocking-side accept callbacks, in queue order. -/
theorem wait_queue_rows_eq
    (container : DataLockWaitContainer)
    (lock_has_to_wait : Lock → Lock → Bool)
    (wait_lock : Lock) (heap_no : Nat)
    (reqid : List Char) (reqtrx : Nat) (wf : Bool)
    (g1 g2 g3 g4 g5 : Nat) :
    ∀ queue : List Lock,
      wait_queue_rows container lock_has_to_wait wait_lock heap_no reqid
        reqtrx wf g1 g2 g3 g4 g5 queue
      = (queue.filter (fun curr_lock =>
            !(wait_blocking_filter_skip wf g1 g2 g3 g4 g5 curr_lock)
            && lock_has_to_wait wait_lock curr_lock
            && container.accept_blocking_transaction_id curr_lock.trx_id
            && container.accept_blocking_thread_id_event_id
              curr_lock.thread_id curr_lock.event_id
            && container.accept_blocking_lock_id
              (print_lock_id curr_lock heap_no))).map
          (fun curr_lock =>
            { requesting_engine_lock_id := reqid
              requesting_trx_id := reqtrx
              requesting_lock_tag := wait_lock.tag
              blocking_engine_lock_id := print_lock_id curr_lock heap_no
              blocking_trx_id := curr_lock.trx_id
              blocking_lock_tag := curr_lock.tag }) := by
  intro queue
  induction queue with
  | nil => rfl
  | cons curr rest ih =>
    simp only [wait_queue_rows, List.filter_cons]
    by_cases h1 : wait_blocking_filter_skip wf g1 g2 g3 g4 g5 curr = true <;>
    by_cases h2 : lock_has_to_wait wait_lock curr = true <;>
    by_cases h3 :
      container.accept_blocking_transaction_id curr.trx_id = true <;>
    by_cases h4 : container.accept_blocking_thread_id_event_id
      curr.thread_id curr.event_id = true <;>
    by_cases h5 : container.accept_blocking_lock_id
      (print_lock_id curr heap_no) = true <;>
    simp [h1, h2, h3, h4, h5, ih]

/-- print_record_lock_id is injective in the heap number (for values the
decoder can reproduce), by decoding the two strings. -/
theorem print_record_lock_id_heap_inj {t s p h1 h2 : Nat}
    (hh1 : h1 ≤ 2 ^ 63 - 1) (hh2 : h2 ≤ 2 ^ 63 - 1)
    (he : print_record_lock_id t s p h1 = print_record_lock_id t s p h2) :
    h1 = h2 := by
  have d1 := scan_lock_id_four_fields t s p h1 ':' (by decide)
  have d2 := scan_lock_id_four_fields t s p h2 ':' (by decide)
  unfold print_record_lock_id at he
  rw [he] at d1
  rw [d1] at d2
  injection d2 with d2
  injection d2 with _ _ _ d2
  rw [clampLong_ofNat hh1, clampLong_ofNat hh2] at d2
  rw [toUlint_ofNat (by omega), toUlint_ofNat (by omega)] at d2
  exact d2

/-! ## Concrete fixtures used by witnesses and counterexamples -/

/-- A data-lock consumer that accepts everything. -/
def all_accepting_container : DataLockContainer :=
  { accept_engine := true
    accept_transaction_id := fun _ => true
    accept_thread_id_event_id := fun _ _ => true
    accept_object := fun _ => true
    accept_lock_id := fun _ => true }

/-- A wait-edge consumer that accepts everything. -/
def all_accepting_wait_container : DataLockWaitContainer :=
  { accept_engine := true
    accept_requesting_transaction_id := fun _ => true
    accept_requesting_thread_id_event_id := fun _ _ => true
    accept_requesting_lock_id := fun _ => true
    accept_blocking_transaction_id := fun _ => true
    accept_blocking_thread_id_event_id := fun _ _ => true
    accept_blocking_lock_id := fun _ => true }

/-! ## Claims -/

/-- Claim C5 (amended): decoding the encoded opaque identifier recovers
the exact kind and resource key — for a table lock the owner transaction
id and table id, for a record lock the owner transaction id, space id,
page id and heap number — provided each 64-bit field value is at most
2^63 - 1 (the decoder parses with a signed-long parser that saturates
above LONG_MAX; 32-bit fields always qualify). -/
theorem C5_lock_id_roundtrip (t b sp pg h : Nat)
    (ht : t ≤ 2 ^ 63 - 1) (hb : b ≤ 2 ^ 63 - 1) (hh : h ≤ 2 ^ 63 - 1)
    (hsp : sp < 2 ^ 32) (hpg : pg < 2 ^ 32) :
    scan_lock_id (print_table_lock_id t b)
      = some (ParsedLockId.LOCK_TABLE t b) ∧
    scan_lock_id (print_record_lock_id t sp pg h)
      = some (ParsedLockId.LOCK_REC t sp pg h) := by
  unfold print_table_lock_id print_record_lock_id
  constructor
  · have e := scan_lock_id_two_fields t b
    rw [clampLong_ofNat ht, clampLong_ofNat hb,
      @toUlint_ofNat t (by omega), @toUlint_ofNat b (by omega)] at e
    exact e
  · have e := scan_lock_id_four_fields t sp pg h ':' (by decide)
    rw [clampLong_ofNat ht, clampLong_ofNat (show sp ≤ 2 ^ 63 - 1 by omega),
      clampLong_ofNat (show pg ≤ 2 ^ 63 - 1 by omega), clampLong_ofNat hh,
      @toUlint_ofNat t (by omega), @toU32_ofNat sp hsp,
      @toU32_ofNat pg hpg, @toUlint_ofNat h (by omega)] at e
    exact e

/-- Witness for C5 at concrete field values. -/
theorem C5_lock_id_roundtrip_witness :
    scan_lock_id (print_table_lock_id 5 7)
      = some (ParsedLockId.LOCK_TABLE 5 7) ∧
    scan_lock_id (print_record_lock_id 5 11 13 3)
      = some (ParsedLockId.LOCK_REC 5 11 13 3) :=
  C5_lock_id_roundtrip 5 7 11 13 3 (by norm_num) (by norm_num)
    (by norm_num) (by norm_num) (by norm_num)

/-- Counterexample to C5 as stated: a table lock whose trx id is 2^63
(a legal unsigned 64-bit id, printed as such) decodes to 2^63 - 1
because strtol saturates at LONG_MAX, so decode does not recover the
identity fields of every lock. -/
theorem C5_lock_id_roundtrip_cex :
    scan_lock_id (print_table_lock_id (2 ^ 63) 0)
      = some (ParsedLockId.LOCK_TABLE (2 ^ 63 - 1) 0) ∧
    (2 ^ 63 - 1 : Nat) ≠ 2 ^ 63 := by
  constructor
  · decide
  · decide

/-- Claim C6 (amended): the decoder succeeds exactly on two-field and
four-field integer forms, except that the separator after the second
field of a four-field identifier is never checked: any single non-digit
character is accepted there.  The separators after the first and third
fields must be colons, a single field fails, three fields fail, and
trailing garbage after the last field fails. -/
theorem C6_decoder_grammar (t1 t2 a b c d e1 e2 e3 : Nat)
    (sep sep2 x : Char) (g : List Char)
    (ht1 : t1 ≤ 2 ^ 63 - 1) (ht2 : t2 ≤ 2 ^ 63 - 1)
    (ha : a ≤ 2 ^ 63 - 1) (hd : d ≤ 2 ^ 63 - 1)
    (hb : b < 2 ^ 32) (hc : c < 2 ^ 32)
    (hsep : sep.isDigit = false) (hsep2 : sep2.isDigit = false)
    (hsep2c : sep2 ≠ ':') (hx : x.isDigit = false) :
    scan_lock_id (natDigits t1 ++ ':' :: natDigits t2)
      = some (ParsedLockId.LOCK_TABLE t1 t2) ∧
    scan_lock_id (natDigits a ++ ':' :: natDigits b ++ sep :: natDigits c
        ++ ':' :: natDigits d)
      = some (ParsedLockId.LOCK_REC a b c d) ∧
    scan_lock_id (natDigits e1) = none ∧
    scan_lock_id (natDigits e1 ++ sep2 :: g) = none ∧
    scan_lock_id (natDigits e1 ++ ':' :: natDigits e2 ++ ':' :: natDigits e3)
      = none ∧
    scan_lock_id (natDigits e1 ++ ':' :: natDigits e2 ++ sep :: natDigits e3
        ++ sep2 :: g) = none ∧
    scan_lock_id (natDigits a ++ ':' :: natDigits b ++ sep :: natDigits c
        ++ ':' :: natDigits d ++ x :: g) = none := by
  refine ⟨?_, ?_, ?_, ?_, ?_, ?_, ?_⟩
  · have e := scan_lock_id_two_fields t1 t2
    rw [clampLong_ofNat ht1, clampLong_ofNat ht2,
      @toUlint_ofNat t1 (by omega), @toUlint_ofNat t2 (by omega)] at e
    exact e
  · have e := scan_lock_id_four_fields a b c d sep hsep
    rw [clampLong_ofNat ha, clampLong_ofNat (show b ≤ 2 ^ 63 - 1 by omega),
      clampLong_ofNat (show c ≤ 2 ^ 63 - 1 by omega), clampLong_ofNat hd,
      @toUlint_ofNat a (by omega), @toU32_ofNat b hb, @toU32_ofNat c hc,
      @toUlint_ofNat d (by omega)] at e
    exact e
  · exact scan_lock_id_one_field e1
  · exact scan_lock_id_bad_sep_one e1 sep2 hsep2 hsep2c g
  · exact scan_lock_id_three_fields e1 e2 e3
  · exact scan_lock_id_bad_sep_three e1 e2 e3 sep sep2 hsep hsep2 hsep2c g
  · exact scan_lock_id_trailing a b c d sep x hsep hx g

/-- Witness for C6 at concrete values. -/
theorem C6_decoder_grammar_witness :
    scan_lock_id (natDigits 1 ++ ':' :: natDigits 2)
      = some (ParsedLockId.LOCK_TABLE 1 2) ∧
    scan_lock_id (natDigits 1 ++ ':' :: natDigits 2 ++ 'x' :: natDigits 3
        ++ ':' :: natDigits 4)
      = some (ParsedLockId.LOCK_REC 1 2 3 4) ∧
    scan_lock_id (natDigits 7) = none ∧
    scan_lock_id (natDigits 7 ++ 'y' :: ('q' :: [])) = none ∧
    scan_lock_id (natDigits 7 ++ ':' :: natDigits 8 ++ ':' :: natDigits 9)
      = none ∧
    scan_lock_id (natDigits 7 ++ ':' :: natDigits 8 ++ 'x' :: natDigits 9
        ++ 'y' :: ('q' :: [])) = none ∧
    scan_lock_id (natDigits 1 ++ ':' :: natDigits 2 ++ 'x' :: natDigits 3
        ++ ':' :: natDigits 4 ++ 'z' :: ('q' :: [])) = none :=
  C6_decoder_grammar 1 2 1 2 3 4 7 8 9 'x' 'y' 'z' ('q' :: [])
    (by norm_num) (by norm_num) (by norm_num) (by norm_num) (by norm_num)
    (by norm_num) (by decide) (by decide) (by decide) (by decide)

/-- Counterexample to C6 as stated: the claim requires any non-colon
separator between fields to be a decode failure, but the separator after
the second field is never checked — this four-field identifier with the
separator x decodes successfully as a record lock. -/
theorem C6_decoder_grammar_cex :
    scan_lock_id (String.toList "1:2x3:4")
      = some (ParsedLockId.LOCK_REC 1 2 3 4) ∧ ('x' : Char) ≠ ':' := by
  constructor
  · decide
  · decide

/-- Claim C2 (amended): when a next-range hint was recorded, advance moves
the range to start at the hint floored to a multiple of SCAN_RANGE and to
end SCAN_RANGE above that start (in uint64 arithmetic, i.e. mod 2^64),
keeping the pass and clearing the hint.  With no hint, advancing from the
not-started or primary pass moves to the next pass with the range reset
to [0, SCAN_RANGE) and the hint cleared; advancing from the secondary
pass moves to the done pass WITHOUT resetting the range; and advancing
from the done pass is the fatal ut_error contract violation (none). -/
theorem C2_prepare_next_scan_spec (s : Innodb_trx_scan_state) :
    (s.m_next_trx_id_range ≠ TRX_ID_MAX →
      prepare_next_scan s = some
        { m_scan_pass := s.m_scan_pass
          m_start_trx_id_range :=
            s.m_next_trx_id_range - s.m_next_trx_id_range % SCAN_RANGE
          m_end_trx_id_range :=
            (s.m_next_trx_id_range - s.m_next_trx_id_range % SCAN_RANGE
              + SCAN_RANGE) % 2 ^ 64
          m_next_trx_id_range := TRX_ID_MAX }) ∧
    (s.m_next_trx_id_range = TRX_ID_MAX →
      (s.m_scan_pass = scan_pass.INIT_SCANNING →
        prepare_next_scan s = some
          { m_scan_pass := scan_pass.SCANNING_RW_TRX_LIST
            m_start_trx_id_range := 0
            m_end_trx_id_range := SCAN_RANGE
            m_next_trx_id_range := TRX_ID_MAX }) ∧
      (s.m_scan_pass = scan_pass.SCANNING_RW_TRX_LIST →
        prepare_next_scan s = some
          { m_scan_pass := scan_pass.SCANNING_MYSQL_TRX_LIST
            m_start_trx_id_range := 0
            m_end_trx_id_range := SCAN_RANGE
            m_next_trx_id_range := TRX_ID_MAX }) ∧
      (s.m_scan_pass = scan_pass.SCANNING_MYSQL_TRX_LIST →
        prepare_next_scan s = some
          { m_scan_pass := scan_pass.DONE_SCANNING
            m_start_trx_id_range := s.m_start_trx_id_range
            m_end_trx_id_range := s.m_end_trx_id_range
            m_next_trx_id_range := s.m_next_trx_id_range }) ∧
      (s.m_scan_pass = scan_pass.DONE_SCANNING →
        prepare_next_scan s = none)) := by
  constructor
  · intro hn
    unfold prepare_next_scan
    rw [if_pos hn]
  · intro hn
    refine ⟨?_, ?_, ?_, ?_⟩ <;> intro hp <;> unfold prepare_next_scan <;>
      rw [if_neg (by simp [hn]), hp]

/-- Witness for C2: advancing from the secondary pass with no hint. -/
theorem C2_prepare_next_scan_spec_witness :
    prepare_next_scan
        { m_scan_pass := scan_pass.SCANNING_MYSQL_TRX_LIST
          m_start_trx_id_range := 256
          m_end_trx_id_range := 512
          m_next_trx_id_range := TRX_ID_MAX }
      = some
        { m_scan_pass := scan_pass.DONE_SCANNING
          m_start_trx_id_range := 256
          m_end_trx_id_range := 512
          m_next_trx_id_range := TRX_ID_MAX } :=
  ((C2_prepare_next_scan_spec
    { m_scan_pass := scan_pass.SCANNING_MYSQL_TRX_LIST
      m_start_trx_id_range := 256
      m_end_trx_id_range := 512
      m_next_trx_id_range := TRX_ID_MAX }).2 rfl).2.2.1 rfl

/-- Counterexample to C2 as stated: advancing with no hint from the
secondary pass moves to the done pass but does not reset the range to
[0, SCAN_RANGE) — the range stays [256, 512). -/
theorem C2_prepare_next_scan_cex :
    prepare_next_scan
        { m_scan_pass := scan_pass.SCANNING_MYSQL_TRX_LIST
          m_start_trx_id_range := 256
          m_end_trx_id_range := 512
          m_next_trx_id_range := TRX_ID_MAX }
      = some
        { m_scan_pass := scan_pass.DONE_SCANNING
          m_start_trx_id_range := 256
          m_end_trx_id_range := 512
          m_next_trx_id_range := TRX_ID_MAX } ∧
    (256 : Nat) ≠ 0 := by
  constructor
  · decide
  · decide

/-- Claim C3 (amended): within one pass, under the range well-formedness
invariant and for observed transaction ids below 2^64 - SCAN_RANGE (so
the uint64 range-end addition cannot wrap), any sequence of inRange
queries leaves pass and range unchanged and preserves the invariant, and
an advance that consumes a recorded hint produces a range that starts at
or after the previous range's end and ends strictly later — successive
ranges within a pass are strictly increasing and never overlap. -/
theorem C3_ranges_increase (s : Innodb_trx_scan_state) (ids : List Nat)
    (hs : scanInv s) (hb : ∀ i ∈ ids, i < 2 ^ 64 - SCAN_RANGE) :
    scanInv (apply_in_range_queries s ids) ∧
    (apply_in_range_queries s ids).m_scan_pass = s.m_scan_pass ∧
    (apply_in_range_queries s ids).m_start_trx_id_range
      = s.m_start_trx_id_range ∧
    (apply_in_range_queries s ids).m_end_trx_id_range
      = s.m_end_trx_id_range ∧
    ((apply_in_range_queries s ids).m_next_trx_id_range ≠ TRX_ID_MAX →
      ∃ u, prepare_next_scan (apply_in_range_queries s ids) = some u ∧
        u.m_scan_pass = s.m_scan_pass ∧
        s.m_end_trx_id_range ≤ u.m_start_trx_id_range ∧
        u.m_end_trx_id_range = u.m_start_trx_id_range + SCAN_RANGE ∧
        s.m_end_trx_id_range < u.m_end_trx_id_range ∧
        scanInv u) := by
  obtain ⟨h1, h2, h3, h4⟩ := apply_in_range_queries_spec ids s hs hb
  refine ⟨h1, h2, h3, h4, ?_⟩
  intro hn
  obtain ⟨u, hpe, hps, hge, hwid, hlt, hinv⟩ := prepare_next_scan_hint h1 hn
  rw [h2] at hps
  rw [h4] at hge hlt
  exact ⟨u, hpe, hps, hge, hwid, hlt, hinv⟩

/-- Witness for C3: one query beyond the current range records a hint and
the following advance opens the adjacent range. -/
theorem C3_ranges_increase_witness :
    scanInv (apply_in_range_queries
      { m_scan_pass := scan_pass.SCANNING_RW_TRX_LIST
        m_start_trx_id_range := 0
        m_end_trx_id_range := 256
        m_next_trx_id_range := TRX_ID_MAX } [300]) ∧
    (apply_in_range_queries
      { m_scan_pass := scan_pass.SCANNING_RW_TRX_LIST
        m_start_trx_id_range := 0
        m_end_trx_id_range := 256
        m_next_trx_id_range := TRX_ID_MAX } [300]).m_scan_pass
      = scan_pass.SCANNING_RW_TRX_LIST ∧
    (apply_in_range_queries
      { m_scan_pass := scan_pass.SCANNING_RW_TRX_LIST
        m_start_trx_id_range := 0
        m_end_trx_id_range := 256
        m_next_trx_id_range := TRX_ID_MAX } [300]).m_start_trx_id_range = 0 ∧
    (apply_in_range_queries
      { m_scan_pass := scan_pass.SCANNING_RW_TRX_LIST
        m_start_trx_id_range := 0
        m_end_trx_id_range := 256
        m_next_trx_id_range := TRX_ID_MAX } [300]).m_end_trx_id_range
      = 256 ∧
    ((apply_in_range_queries
      { m_scan_pass := scan_pass.SCANNING_RW_TRX_LIST
        m_start_trx_id_range := 0
        m_end_trx_id_range := 256
        m_next_trx_id_range := TRX_ID_MAX } [300]).m_next_trx_id_range
        ≠ TRX_ID_MAX →
      ∃ u, prepare_next_scan (apply_in_range_queries
          { m_scan_pass := scan_pass.SCANNING_RW_TRX_LIST
            m_start_trx_id_range := 0
            m_end_trx_id_range := 256
            m_next_trx_id_range := TRX_ID_MAX } [300]) = some u ∧
        u.m_scan_pass = scan_pass.SCANNING_RW_TRX_LIST ∧
        256 ≤ u.m_start_trx_id_range ∧
        u.m_end_trx_id_range = u.m_start_trx_id_range + SCAN_RANGE ∧
        256 < u.m_end_trx_id_range ∧
        scanInv u) :=
  C3_ranges_increase
    { m_scan_pass := scan_pass.SCANNING_RW_TRX_LIST
      m_start_trx_id_range := 0
      m_end_trx_id_range := 256
      m_next_trx_id_range := TRX_ID_MAX } [300]
    (by refine ⟨by decide, by decide, Or.inl rfl⟩)
    (by intro i hi; simp at hi; subst hi; decide)

/-- Counterexample to C3 as stated: with observed ids near 2^64 (legal:
below TRX_ID_MAX, the bound the code itself asserts), the uint64 range
end wraps to 0; the next range [2^64-256, 0) has an end smaller than the
previous end 256, and after observing id 0 the subsequent range is
[0, 256) again — identical to the first range of the pass, so ranges are
neither strictly increasing nor pairwise non-overlapping. -/
theorem C3_ranges_increase_cex :
    trx_id_in_range
        { m_scan_pass := scan_pass.SCANNING_RW_TRX_LIST
          m_start_trx_id_range := 0
          m_end_trx_id_range := 256
          m_next_trx_id_range := TRX_ID_MAX } (2 ^ 64 - 2)
      = (false,
        { m_scan_pass := scan_pass.SCANNING_RW_TRX_LIST
          m_start_trx_id_range := 0
          m_end_trx_id_range := 256
          m_next_trx_id_range := 2 ^ 64 - 2 }) ∧
    prepare_next_scan
        { m_scan_pass := scan_pass.SCANNING_RW_TRX_LIST
          m_start_trx_id_range := 0
          m_end_trx_id_range := 256
          m_next_trx_id_range := 2 ^ 64 - 2 }
      = some
        { m_scan_pass := scan_pass.SCANNING_RW_TRX_LIST
          m_start_trx_id_range := 2 ^ 64 - 256
          m_end_trx_id_range := 0
          m_next_trx_id_range := TRX_ID_MAX } ∧
    trx_id_in_range
        { m_scan_pass := scan_pass.SCANNING_RW_TRX_LIST
          m_start_trx_id_range := 2 ^ 64 - 256
          m_end_trx_id_range := 0
          m_next_trx_id_range := TRX_ID_MAX } 0
      = (false,
        { m_scan_pass := scan_pass.SCANNING_RW_TRX_LIST
          m_start_trx_id_range := 2 ^ 64 - 256
          m_end_trx_id_range := 0
          m_next_trx_id_range := 0 }) ∧
    prepare_next_scan
        { m_scan_pass := scan_pass.SCANNING_RW_TRX_LIST
          m_start_trx_id_range := 2 ^ 64 - 256
          m_end_trx_id_range := 0
          m_next_trx_id_range := 0 }
      = some
        { m_scan_pass := scan_pass.SCANNING_RW_TRX_LIST
          m_start_trx_id_range := 0
          m_end_trx_id_range := 256
          m_next_trx_id_range := TRX_ID_MAX } ∧
    (0 : Nat) < 256 ∧ (2 ^ 64 - 2 : Nat) < TRX_ID_MAX := by
  refine ⟨?_, ?_, ?_, ?_, ?_, ?_⟩ <;> decide

/-- Claim C4 (confirmed): a successful advance either keeps the pass or
moves it to the immediately next pass in the order not-started, primary,
secondary, done; and over any event sequence of one scan session the pass
index never decreases — so each pass is entered at most once, in exactly
that order, and is never revisited. -/
theorem C4_passes_in_order :
    (∀ s t : Innodb_trx_scan_state, prepare_next_scan s = some t →
      t.m_scan_pass = s.m_scan_pass ∨
        passIdx t.m_scan_pass = passIdx s.m_scan_pass + 1) ∧
    (∀ (evs : List ScanEvent) (s t : Innodb_trx_scan_state),
      runScanEvents s evs = some t →
      passIdx s.m_scan_pass ≤ passIdx t.m_scan_pass) :=
  ⟨fun _ _ h => prepare_next_scan_pass_step h,
   fun evs s t h => runScanEvents_pass_mono evs s t h⟩

/-- Witness for C4 over a concrete session prefix. -/
theorem C4_passes_in_order_witness :
    ((⟨scan_pass.SCANNING_RW_TRX_LIST, 0, 256, TRX_ID_MAX⟩
        : Innodb_trx_scan_state).m_scan_pass
        = initial_scan_state.m_scan_pass ∨
      passIdx (⟨scan_pass.SCANNING_RW_TRX_LIST, 0, 256, TRX_ID_MAX⟩
        : Innodb_trx_scan_state).m_scan_pass
        = passIdx initial_scan_state.m_scan_pass + 1) ∧
    passIdx initial_scan_state.m_scan_pass ≤
      passIdx (⟨scan_pass.SCANNING_MYSQL_TRX_LIST, 0, 256, TRX_ID_MAX⟩
        : Innodb_trx_scan_state).m_scan_pass :=
  ⟨C4_passes_in_order.1 initial_scan_state
    ⟨scan_pass.SCANNING_RW_TRX_LIST, 0, 256, TRX_ID_MAX⟩ (by decide),
   C4_passes_in_order.2
    [ScanEvent.advance, ScanEvent.query 5, ScanEvent.advance]
    initial_scan_state
    ⟨scan_pass.SCANNING_MYSQL_TRX_LIST, 0, 256, TRX_ID_MAX⟩ (by decide)⟩

/-- Claim C7 (confirmed): a transaction not in the explicit lock-wait
state contributes zero wait-edge rows; for a waiting transaction with
awaited lock w, a wait-edge row is emitted for a conflict-queue candidate
if and only if (when filtering) both sides match their filters exactly,
the manager's conflict predicate holds between the awaited lock and the
candidate, and every consumer accept callback for both the requesting and
the blocking side returns true. -/
theorem C7_wait_edge_characterization
    (container : DataLockWaitContainer)
    (lock_has_to_wait : Lock → Lock → Bool)
    (trx : Trx) (wf : Bool) (f1 f2 f3 f4 f5 g1 g2 g3 g4 g5 : Nat) :
    (trx.que_state ≠ trx_que_state.TRX_QUE_LOCK_WAIT →
      Innodb_data_lock_wait_iterator_scan_trx container lock_has_to_wait
        trx wf f1 f2 f3 f4 f5 g1 g2 g3 g4 g5 = some []) ∧
    (∀ w, trx.que_state = trx_que_state.TRX_QUE_LOCK_WAIT →
      trx.wait_lock = some w →
      Innodb_data_lock_wait_iterator_scan_trx container lock_has_to_wait
        trx wf f1 f2 f3 f4 f5 g1 g2 g3 g4 g5
      = some (
        if wait_requesting_filter_ok wf f1 f2 f3 f4 f5 w
            && container.accept_requesting_transaction_id trx.trx_id
            && container.accept_requesting_thread_id_event_id
              w.thread_id w.event_id
            && container.accept_requesting_lock_id
              (print_lock_id w (requesting_heap_no w)) then
          (trx.wait_queue.filter (fun c =>
              !(wait_blocking_filter_skip wf g1 g2 g3 g4 g5 c)
              && lock_has_to_wait w c
              && container.accept_blocking_transaction_id c.trx_id
              && container.accept_blocking_thread_id_event_id
                c.thread_id c.event_id
              && container.accept_blocking_lock_id
                (print_lock_id c (requesting_heap_no w)))).map
            (fun c =>
              { requesting_engine_lock_id :=
                  print_lock_id w (requesting_heap_no w)
                requesting_trx_id := trx.trx_id
                requesting_lock_tag := w.tag
                blocking_engine_lock_id :=
                  print_lock_id c (requesting_heap_no w)
                blocking_trx_id := c.trx_id
                blocking_lock_tag := c.tag })
        else [])) := by
  constructor
  · intro hq
    unfold Innodb_data_lock_wait_iterator_scan_trx
    rw [if_pos hq]
  · intro w hq hw
    by_cases h1 : wait_requesting_filter_ok wf f1 f2 f3 f4 f5 w = true <;>
    by_cases h2 :
      container.accept_requesting_transaction_id trx.trx_id = true <;>
    by_cases h3 : container.accept_requesting_thread_id_event_id
      w.thread_id w.event_id = true <;>
    by_cases h4 : container.accept_requesting_lock_id
      (print_lock_id w (requesting_heap_no w)) = true <;>
    simp [Innodb_data_lock_wait_iterator_scan_trx, hq, hw, h1, h2, h3, h4,
      wait_queue_rows_eq]

/-- The requesting lock of the concrete wait scenario: a record lock of
transaction 100 on space 5, page 6, with heap bits 3 and 9 set. -/
def demo_requesting_lock : Lock :=
  { tag := 11
    trx_id := 100
    thread_id := 0
    event_id := 0
    table_path := 0
    kind := LockKind.LOCK_REC 5 6 [3, 9] }

/-- The blocking candidate of the concrete wait scenario: a granted
record lock of transaction 200 on the same page with first set bit 4
(different from the requesting lock's first set bit 3). -/
def demo_blocking_lock : Lock :=
  { tag := 12
    trx_id := 200
    thread_id := 0
    event_id := 0
    table_path := 0
    kind := LockKind.LOCK_REC 5 6 [4] }

/-- A transaction of the concrete wait scenario: trx 100 waits on
demo_requesting_lock whose conflict queue holds demo_blocking_lock. -/
def demo_wait_trx : Trx :=
  { trx_id := 100
    is_started := true
    read_only := false
    que_state := trx_que_state.TRX_QUE_LOCK_WAIT
    wait_lock := some demo_requesting_lock
    wait_queue := [demo_blocking_lock]
    trx_locks := [demo_requesting_lock] }

/-- Witness for C7: the spec's example — T1 waits on a record lock that
conflicts with a granted lock of T2 on the same resource, the consumer
accepts everything, and exactly one wait row (T1 requesting, T2 blocking)
is produced. -/
theorem C7_wait_edge_characterization_witness :
    Innodb_data_lock_wait_iterator_scan_trx all_accepting_wait_container
      (fun _ _ => true) demo_wait_trx false 0 0 0 0 0 0 0 0 0 0
      = some [{ requesting_engine_lock_id := String.toList "100:5:6:3"
                requesting_trx_id := 100
                requesting_lock_tag := 11
                blocking_engine_lock_id := String.toList "200:5:6:3"
                blocking_trx_id := 200
                blocking_lock_tag := 12 }] :=
  (((C7_wait_edge_characterization all_accepting_wait_container
      (fun _ _ => true) demo_wait_trx false 0 0 0 0 0 0 0 0 0 0).2
    demo_requesting_lock rfl rfl).trans (by decide))

/-- Claim C10 (confirmed): every emitted wait-edge row prints the
blocking opaque identifier with the REQUESTING lock's heap number (for a
record-lock wait, its first set bit), not with a slot taken from the
blocking lock itself; when the blocking record lock's own first set bit
differs, the printed identifier does not match the one its own slot
would give. -/
theorem C10_blocking_id_uses_requesting_slot
    (container : DataLockWaitContainer)
    (lock_has_to_wait : Lock → Lock → Bool)
    (trx : Trx) (w : Lock) (wf : Bool)
    (f1 f2 f3 f4 f5 g1 g2 g3 g4 g5 : Nat) (rows : List WaitRow)
    (hw : trx.wait_lock = some w)
    (hrun : Innodb_data_lock_wait_iterator_scan_trx container
      lock_has_to_wait trx wf f1 f2 f3 f4 f5 g1 g2 g3 g4 g5 = some rows) :
    ∀ r ∈ rows, ∃ c, c ∈ trx.wait_queue ∧
      r.blocking_engine_lock_id = print_lock_id c (requesting_heap_no w) ∧
      r.blocking_lock_tag = c.tag ∧
      (∀ sp pg bits, c.kind = LockKind.LOCK_REC sp pg bits →
        r.blocking_engine_lock_id
          = print_record_lock_id c.trx_id sp pg (requesting_heap_no w) ∧
        (requesting_heap_no w ≤ 2 ^ 63 - 1 →
          lock_rec_find_set_bit bits ≤ 2 ^ 63 - 1 →
          lock_rec_find_set_bit bits ≠ requesting_heap_no w →
          r.blocking_engine_lock_id
            ≠ print_record_lock_id c.trx_id sp pg
                (lock_rec_find_set_bit bits))) := by
  intro r hr
  unfold Innodb_data_lock_wait_iterator_scan_trx at hrun
  by_cases hq : trx.que_state ≠ trx_que_state.TRX_QUE_LOCK_WAIT
  · rw [if_pos hq] at hrun
    injection hrun with hrun
    subst hrun
    exact absurd hr (List.not_mem_nil r)
  · rw [if_neg hq, hw] at hrun
    dsimp only at hrun
    by_cases h1 : wait_requesting_filter_ok wf f1 f2 f3 f4 f5 w = true
    · rw [if_neg (by simp [h1])] at hrun
      by_cases h2 :
          container.accept_requesting_transaction_id trx.trx_id = true
      · rw [if_neg (by simp [h2])] at hrun
        by_cases h3 : container.accept_requesting_thread_id_event_id
            w.thread_id w.event_id = true
        · rw [if_neg (by simp [h3])] at hrun
          by_cases h4 : container.accept_requesting_lock_id
              (print_lock_id w (requesting_heap_no w)) = true
          · rw [if_neg (by simp [h4])] at hrun
            injection hrun with hrun
            subst hrun
            rw [wait_queue_rows_eq] at hr
            obtain ⟨c, hcmem, hrc⟩ := List.mem_map.mp hr
            have hcq := (List.mem_filter.mp hcmem).1
            subst hrc
            refine ⟨c, hcq, rfl, rfl, ?_⟩
            intro sp pg bits hkind
            have hprint : print_lock_id c (requesting_heap_no w)
                = print_record_lock_id c.trx_id sp pg
                    (requesting_heap_no w) := by
              unfold print_lock_id
              rw [hkind]
            refine ⟨hprint, ?_⟩
            intro hb1 hb2 hne heq
            rw [hprint] at heq
            exact hne (print_record_lock_id_heap_inj hb2 hb1 heq.symm)
          · rw [if_pos (by simp [h4])] at hrun
            injection hrun with hrun
            subst hrun
            exact absurd hr (List.not_mem_nil r)
        · rw [if_pos (by simp [h3])] at hrun
          injection hrun with hrun
          subst hrun
          exact absurd hr (List.not_mem_nil r)
      · rw [if_pos (by simp [h2])] at hrun
        injection hrun with hrun
        subst hrun
        exact absurd hr (List.not_mem_nil r)
    · rw [if_pos (by simp [h1])] at hrun
      injection hrun with hrun
      subst hrun
      exact absurd hr (List.not_mem_nil r)

/-- Witness for C10: in the concrete scenario the blocking lock's own
first set bit is 4 but the emitted blocking identifier carries the
requesting lock's first set bit 3. -/
theorem C10_blocking_id_uses_requesting_slot_witness :
    ∃ c, c ∈ demo_wait_trx.wait_queue ∧
      ({ requesting_engine_lock_id := String.toList "100:5:6:3"
         requesting_trx_id := 100
         requesting_lock_tag := 11
         blocking_engine_lock_id := String.toList "200:5:6:3"
         blocking_trx_id := 200
         blocking_lock_tag := 12 } : WaitRow).blocking_engine_lock_id
        = print_lock_id c (requesting_heap_no demo_requesting_lock) ∧
      ({ requesting_engine_lock_id := String.toList "100:5:6:3"
         requesting_trx_id := 100
         requesting_lock_tag := 11
         blocking_engine_lock_id := String.toList "200:5:6:3"
         blocking_trx_id := 200
         blocking_lock_tag := 12 } : WaitRow).blocking_lock_tag = c.tag ∧
      (∀ sp pg bits, c.kind = LockKind.LOCK_REC sp pg bits →
        ({ requesting_engine_lock_id := String.toList "100:5:6:3"
           requesting_trx_id := 100
           requesting_lock_tag := 11
           blocking_engine_lock_id := String.toList "200:5:6:3"
           blocking_trx_id := 200
           blocking_lock_tag := 12 } : WaitRow).blocking_engine_lock_id
          = print_record_lock_id c.trx_id sp pg
              (requesting_heap_no demo_requesting_lock) ∧
        (requesting_heap_no demo_requesting_lock ≤ 2 ^ 63 - 1 →
          lock_rec_find_set_bit bits ≤ 2 ^ 63 - 1 →
          lock_rec_find_set_bit bits
            ≠ requesting_heap_no demo_requesting_lock →
          ({ requesting_engine_lock_id := String.toList "100:5:6:3"
             requesting_trx_id := 100
             requesting_lock_tag := 11
             blocking_engine_lock_id := String.toList "200:5:6:3"
             blocking_trx_id := 200
             blocking_lock_tag := 12 } : WaitRow).blocking_engine_lock_id
            ≠ print_record_lock_id c.trx_id sp pg
                (lock_rec_find_set_bit bits))) :=
  C10_blocking_id_uses_requesting_slot all_accepting_wait_container
    (fun _ _ => true) demo_wait_trx demo_requesting_lock false
    0 0 0 0 0 0 0 0 0 0
    [{ requesting_engine_lock_id := String.toList "100:5:6:3"
       requesting_trx_id := 100
       requesting_lock_tag := 11
       blocking_engine_lock_id := String.toList "200:5:6:3"
       blocking_trx_id := 200
       blocking_lock_tag := 12 }]
    rfl (by decide) _ (by decide)

/-- The awaited lock of the C1 scenario (walked first). -/
def demo_sticky_wait_lock : Lock :=
  { tag := 1
    trx_id := 7
    thread_id := 0
    event_id := 0
    table_path := 0
    kind := LockKind.LOCK_TABLE 10 }

/-- A second, granted lock of the same transaction (walked after the
awaited one; it is not the awaited lock). -/
def demo_sticky_other_lock : Lock :=
  { tag := 2
    trx_id := 7
    thread_id := 0
    event_id := 0
    table_path := 0
    kind := LockKind.LOCK_TABLE 11 }

/-- The C1 transaction: it awaits its first lock and also holds a second
granted lock that the lock-list walk visits afterwards. -/
def demo_sticky_trx : Trx :=
  { trx_id := 7
    is_started := true
    read_only := false
    que_state := trx_que_state.TRX_QUE_LOCK_WAIT
    wait_lock := some demo_sticky_wait_lock
    wait_queue := []
    trx_locks := [demo_sticky_wait_lock, demo_sticky_other_lock] }

/-- Claim C1 (code_bug evidence): with an accept-all consumer, a
transaction whose lock-list walk meets the awaited lock before another
granted lock gets BOTH rows reported as WAITING — the C variable
lock_status_str is set to "WAITING" when the awaited lock is walked and
never reset to "GRANTED" for the locks walked after it.  The second row
(lock tag 2) is not the awaited lock (tag 1), so the claim's
"WAITING iff the lock is the awaited lock" fails on the code. -/
theorem C1_sticky_waiting_status :
    (Innodb_data_lock_iterator_scan_trx all_accepting_container
        demo_sticky_trx false 0 0 0 0 0).map
      (fun r => (r.lock_tag, r.status))
      = [(1, LockStatus.WAITING), (2, LockStatus.WAITING)] ∧
    demo_sticky_trx.wait_lock.map Lock.tag = some 1 ∧ (2 : Nat) ≠ 1 := by
  refine ⟨?_, ?_, ?_⟩ <;> decide

/-- Claim C8 (amended theorem): scan returns "done" (true) exactly when,
at entry, the pass is already done or this is the first call and the
consumer rejects the engine; every call that does scanning work returns
"more pending" (false), even when the pass transitions to done during
that call. -/
theorem C8_scan_return_value
    (container : DataLockContainer) (fuel : Nat)
    (st0 : Innodb_trx_scan_state) (rw_trx_list mysql_trx_list : List Trx)
    (out : Innodb_trx_scan_state × List LockRow × Bool)
    (h : Innodb_data_lock_iterator_scan container fuel st0 rw_trx_list
      mysql_trx_list = some out) :
    (out.2.2 = true ↔
      ((st0.m_scan_pass = scan_pass.INIT_SCANNING ∧
        container.accept_engine = false) ∨
       st0.m_scan_pass = scan_pass.DONE_SCANNING)) := by
  unfold Innodb_data_lock_iterator_scan at h
  by_cases hc1 : st0.m_scan_pass = scan_pass.INIT_SCANNING ∧
      ¬ container.accept_engine = true
  · rw [if_pos hc1] at h
    injection h with h
    subst h
    constructor
    · intro _
      exact Or.inl ⟨hc1.1, by simpa using hc1.2⟩
    · intro _
      rfl
  · rw [if_neg hc1] at h
    rcases hstep : (if st0.m_scan_pass = scan_pass.INIT_SCANNING then
        prepare_next_scan st0 else some st0) with _ | st1
    · rw [hstep] at h
      simp at h
    · rw [hstep] at h
      dsimp only at h
      by_cases hc2 : st1.m_scan_pass = scan_pass.DONE_SCANNING
      · rw [if_pos hc2] at h
        injection h with h
        subst h
        constructor
        · intro _
          by_cases hinit : st0.m_scan_pass = scan_pass.INIT_SCANNING
          · rw [if_pos hinit] at hstep
            rcases prepare_next_scan_pass_step hstep with he | he
            · exfalso
              rw [he, hinit] at hc2
              exact absurd hc2 (by decide)
            · exfalso
              rw [hinit, hc2] at he
              exact absurd he (by decide)
          · rw [if_neg hinit] at hstep
            injection hstep with hstep
            subst hstep
            exact Or.inr hc2
        · intro _
          rfl
      · rw [if_neg hc2] at h
        rcases hl1 : scan_pass_loop container true
            scan_pass.SCANNING_RW_TRX_LIST rw_trx_list fuel st1 []
          with _ | r2
        · rw [hl1] at h
          simp at h
        · rw [hl1] at h
          dsimp only at h
          rcases hl2 : scan_pass_loop container false
              scan_pass.SCANNING_MYSQL_TRX_LIST mysql_trx_list fuel
              r2.1 r2.2 with _ | r3
          · rw [hl2] at h
            simp at h
          · rw [hl2] at h
            dsimp only at h
            injection h with h
            subst h
            constructor
            · intro hfalse
              simp at hfalse
            · intro hr
              exfalso
              rcases hr with ⟨hi, he⟩ | hdone
              · exact hc1 ⟨hi, by simp [he]⟩
              · have hni : ¬ st0.m_scan_pass = scan_pass.INIT_SCANNING := by
                  rw [hdone]
                  decide
                rw [if_neg hni] at hstep
                injection hstep with hstep
                subst hstep
                exact hc2 hdone

/-- Witness for C8: a call entered in the done pass returns true. -/
theorem C8_scan_return_value_witness :
    (((⟨scan_pass.DONE_SCANNING, 0, 256, TRX_ID_MAX⟩
        : Innodb_trx_scan_state), ([] : List LockRow), true).2.2 = true ↔
      (((⟨scan_pass.DONE_SCANNING, 0, 256, TRX_ID_MAX⟩
          : Innodb_trx_scan_state).m_scan_pass = scan_pass.INIT_SCANNING ∧
        all_accepting_container.accept_engine = false) ∨
       (⟨scan_pass.DONE_SCANNING, 0, 256, TRX_ID_MAX⟩
          : Innodb_trx_scan_state).m_scan_pass
         = scan_pass.DONE_SCANNING)) :=
  C8_scan_return_value all_accepting_container 1
    ⟨scan_pass.DONE_SCANNING, 0, 256, TRX_ID_MAX⟩ [] []
    (⟨scan_pass.DONE_SCANNING, 0, 256, TRX_ID_MAX⟩, [], true) (by decide)

/-- A primary-population transaction with id i holding one table lock. -/
def one_table_lock_trx (i : Nat) : Trx :=
  { trx_id := i
    is_started := true
    read_only := false
    que_state := trx_que_state.TRX_QUE_RUNNING
    wait_lock := none
    wait_queue := []
    trx_locks := [{ tag := i
                    trx_id := i
                    thread_id := 0
                    event_id := 0
                    table_path := 0
                    kind := LockKind.LOCK_TABLE 1 }] }

/-- The spec's example population: 300 transactions with ids 0..299. -/
def rw_population_300 : List Trx := (List.range 300).map one_table_lock_trx

set_option maxRecDepth 40000 in
/-- Counterexample to C8 as stated: the first call reports the 256 ids in
[0, 256) and returns more-pending, the second call reports the remaining
44 ids and returns more-pending, but the THIRD call emits zero rows,
moves the pass to done during the call, and still returns false ("more
pending") — the claim requires it to return "done"; only from the fourth
call on does scan return true. -/
theorem C8_scan_return_value_cex :
    (Innodb_data_lock_iterator_scan all_accepting_container 4
        initial_scan_state rw_population_300 []).map
      (fun r => (r.1, (r.2.1.map LockRow.trx_id, r.2.2)))
      = some (⟨scan_pass.SCANNING_RW_TRX_LIST, 256, 512, TRX_ID_MAX⟩,
        (List.range 256, false)) ∧
    (Innodb_data_lock_iterator_scan all_accepting_container 4
        ⟨scan_pass.SCANNING_RW_TRX_LIST, 256, 512, TRX_ID_MAX⟩
        rw_population_300 []).map
      (fun r => (r.1, (r.2.1.map LockRow.trx_id, r.2.2)))
      = some (⟨scan_pass.SCANNING_MYSQL_TRX_LIST, 0, 256, TRX_ID_MAX⟩,
        (List.range' 256 44, false)) ∧
    Innodb_data_lock_iterator_scan all_accepting_container 4
        ⟨scan_pass.SCANNING_MYSQL_TRX_LIST, 0, 256, TRX_ID_MAX⟩
        rw_population_300 []
      = some (⟨scan_pass.DONE_SCANNING, 0, 256, TRX_ID_MAX⟩, [], false) ∧
    Innodb_data_lock_iterator_scan all_accepting_container 4
        ⟨scan_pass.DONE_SCANNING, 0, 256, TRX_ID_MAX⟩
        rw_population_300 []
      = some (⟨scan_pass.DONE_SCANNING, 0, 256, TRX_ID_MAX⟩, [], true) := by
  refine ⟨?_, ?_, ?_, ?_⟩ <;> decide

/-- Claim C9 (confirmed): a fetch whose opaque lock identifier fails to
decode reports "not found" by emitting no rows and returning normally,
and neither the lock-subsystem mutex nor the transaction-list mutex is
acquired during that call (the Bool in the fetch models records mutex
acquisition); for the wait-edge fetch this holds when either identifier
fails to decode. -/
theorem C9_fetch_decode_failure_no_mutex :
    (∀ (container : DataLockContainer) (s : List Char) (rw my : List Trx),
      scan_lock_id s = none →
      Innodb_data_lock_iterator_fetch container s rw my = ([], false)) ∧
    (∀ (container : DataLockWaitContainer)
      (lock_has_to_wait : Lock → Lock → Bool) (sreq sblk : List Char)
      (rw my : List Trx),
      scan_lock_id sreq = none ∨ scan_lock_id sblk = none →
      Innodb_data_lock_wait_iterator_fetch container lock_has_to_wait
        sreq sblk rw my = (some [], false)) := by
  constructor
  · intro container s rw my hs
    unfold Innodb_data_lock_iterator_fetch
    by_cases he : container.accept_engine = true
    · rw [if_neg (by simp [he]), hs]
    · rw [if_pos (by simp [he])]
  · intro container lock_has_to_wait sreq sblk rw my hs
    unfold Innodb_data_lock_wait_iterator_fetch
    by_cases he : container.accept_engine = true
    · rw [if_neg (by simp [he])]
      rcases hs with hs | hs
      · rw [hs]
      · rcases hreq : scan_lock_id sreq with _ | p
        · rfl
        · rw [hs]
    · rw [if_pos (by simp [he])]

/-- Witness for C9 with a concrete malformed identifier. -/
theorem C9_fetch_decode_failure_no_mutex_witness :
    Innodb_data_lock_iterator_fetch all_accepting_container
      (String.toList "garbage") [] [] = ([], false) ∧
    Innodb_data_lock_wait_iterator_fetch all_accepting_wait_container
      (fun _ _ => true) (String.toList "garbage") (String.toList "1:2")
      [] [] = (some [], false) :=
  ⟨C9_fetch_decode_failure_no_mutex.1 all_accepting_container
    (String.toList "garbage") [] [] (by decide),
   C9_fetch_decode_failure_no_mutex.2 all_accepting_wait_container
    (fun _ _ => true) (String.toList "garbage") (String.toList "1:2")
    [] [] (Or.inl (by decide))⟩

end PS
